import Mathlib

/-!
Verification of the half-edge mesh editor of MyScotty3D
(`src/student/meshedit.cpp`) against its natural-language specification.

The mesh is embedded shallowly: the four element arenas (vertices, edges,
half-edges, faces) become association lists from a global id (`Nat`) to the
element's record; the global id counter `next_id` becomes `fresh`; deferred
erasure becomes explicit `dead*` mark lists, with compaction removing the
marked entries.  Floating point geometry that lives outside `src/`
(`Vec3`, `Edge::length()`, `Vertex::normal()`) is modelled with exact
rationals or with explicit oracle parameters, as noted at each definition.
-/

set_option linter.unusedVariables false

/-- Exact rational numbers in lowest terms, with fully structural
arithmetic (Mathlib's `Rat` operations do not evaluate inside the kernel;
these do).  Stand-in for the `float` scalars of the C++. -/
structure Q where
  num : Int
  den : Nat
deriving DecidableEq, Repr

/-- Normalise a fraction to lowest terms. -/
def Q.norm (n : Int) (d : Nat) : Q :=
  let g := Nat.gcd n.natAbs d
  ⟨n / (g : Int), d / g⟩

def Q.add (a b : Q) : Q := Q.norm (a.num * b.den + b.num * a.den) (a.den * b.den)

def Q.sub (a b : Q) : Q := Q.norm (a.num * b.den - b.num * a.den) (a.den * b.den)

def Q.mul (a b : Q) : Q := Q.norm (a.num * b.num) (a.den * b.den)

def Q.div (a b : Q) : Q :=
  if b.num < 0 then Q.norm (-(a.num * b.den)) (a.den * b.num.natAbs)
  else Q.norm (a.num * b.den) (a.den * b.num.natAbs)

/-- Strict order on fractions by cross multiplication. -/
def Q.blt (a b : Q) : Bool := decide (a.num * b.den < b.num * a.den)

def Q.ofNat (n : Nat) : Q := ⟨n, 1⟩

instance : Add Q := ⟨Q.add⟩

instance : Sub Q := ⟨Q.sub⟩

instance : Mul Q := ⟨Q.mul⟩

instance : Div Q := ⟨Q.div⟩

instance (n : Nat) : OfNat Q n := ⟨⟨n, 1⟩⟩

instance : Inhabited Q := ⟨⟨0, 1⟩⟩

/-- Exact-rational stand-in for the `Vec3` value type (float in C++). -/
structure Vec3 where
  x : Q
  y : Q
  z : Q
deriving DecidableEq, Repr

def Vec3.add (a b : Vec3) : Vec3 := ⟨a.x + b.x, a.y + b.y, a.z + b.z⟩

def Vec3.sub (a b : Vec3) : Vec3 := ⟨a.x - b.x, a.y - b.y, a.z - b.z⟩

def Vec3.smul (q : Q) (a : Vec3) : Vec3 := ⟨q * a.x, q * a.y, q * a.z⟩

def Vec3.dot (a b : Vec3) : Q := a.x * b.x + a.y * b.y + a.z * b.z

def Vec3.zero : Vec3 := ⟨0, 0, 0⟩

instance : Inhabited Vec3 := ⟨Vec3.zero⟩

/-- Association-list lookup with a default value (used to resolve element
ids to their records; a reference in the C++ is such an id). -/
def lookupD {α : Type} (l : List (Nat × α)) (k : Nat) (d : α) : α :=
  match l with
  | [] => d
  | p :: t => if p.1 = k then p.2 else lookupD t k d

/-- In-place update of every entry with key `k` (the arenas are updated
through references in the C++; keys are never reordered). -/
def updAssoc {α : Type} (k : Nat) (f : α → α) (l : List (Nat × α)) :
    List (Nat × α) :=
  l.map (fun p => if p.1 = k then (p.1, f p.2) else p)

/-- `Halfedge`: references to next, twin, source vertex, edge and left face
(fields of the C++ `Halfedge` element). -/
structure Halfedge where
  next : Nat
  twin : Nat
  vertex : Nat
  edge : Nat
  face : Nat
deriving DecidableEq, Repr

instance : Inhabited Halfedge := ⟨⟨0, 0, 0, 0, 0⟩⟩

/-- `Vertex`: representative outgoing half-edge, position, scratch new
position and the subdivision `is_new` flag. -/
structure Vertex where
  halfedge : Nat
  pos : Vec3
  new_pos : Vec3
  is_new : Bool
deriving DecidableEq, Repr

instance : Inhabited Vertex := ⟨⟨0, Vec3.zero, Vec3.zero, false⟩⟩

/-- `Edge`: representative half-edge, scratch new position, `is_new` flag. -/
structure Edge where
  halfedge : Nat
  new_pos : Vec3
  is_new : Bool
deriving DecidableEq, Repr

instance : Inhabited Edge := ⟨⟨0, Vec3.zero, false⟩⟩

/-- `Face`: representative half-edge, boundary flag, scratch new position. -/
structure Face where
  halfedge : Nat
  boundary : Bool
  new_pos : Vec3
deriving DecidableEq, Repr

instance : Inhabited Face := ⟨⟨0, false, Vec3.zero⟩⟩

/-- The half-edge mesh: four arenas keyed by a shared id counter, plus the
deferred-erasure mark lists (an `erase` call in the source only marks; the
storage survives until compaction so that in-flight edits may still read
through marked elements). -/
structure Halfedge_Mesh where
  halfedges : List (Nat × Halfedge)
  vertices : List (Nat × Vertex)
  edges : List (Nat × Edge)
  faces : List (Nat × Face)
  deadH : List Nat
  deadV : List Nat
  deadE : List Nat
  deadF : List Nat
  fresh : Nat
deriving DecidableEq, Repr

namespace Halfedge_Mesh

/-- Resolve a half-edge reference. -/
def getH (m : Halfedge_Mesh) (i : Nat) : Halfedge := lookupD m.halfedges i default

/-- Resolve a vertex reference. -/
def getV (m : Halfedge_Mesh) (i : Nat) : Vertex := lookupD m.vertices i default

/-- Resolve an edge reference. -/
def getE (m : Halfedge_Mesh) (i : Nat) : Edge := lookupD m.edges i default

/-- Resolve a face reference. -/
def getF (m : Halfedge_Mesh) (i : Nat) : Face := lookupD m.faces i default

def next (m : Halfedge_Mesh) (i : Nat) : Nat := (m.getH i).next

def twin (m : Halfedge_Mesh) (i : Nat) : Nat := (m.getH i).twin

def hvertex (m : Halfedge_Mesh) (i : Nat) : Nat := (m.getH i).vertex

def hedge (m : Halfedge_Mesh) (i : Nat) : Nat := (m.getH i).edge

def hface (m : Halfedge_Mesh) (i : Nat) : Nat := (m.getH i).face

def vhalfedge (m : Halfedge_Mesh) (i : Nat) : Nat := (m.getV i).halfedge

def ehalfedge (m : Halfedge_Mesh) (i : Nat) : Nat := (m.getE i).halfedge

def fhalfedge (m : Halfedge_Mesh) (i : Nat) : Nat := (m.getF i).halfedge

def boundary (m : Halfedge_Mesh) (i : Nat) : Bool := (m.getF i).boundary

/-- `h->set_neighbors(next, twin, vertex, edge, face)`: replaces all five
link fields of half-edge `i`. -/
def setNeighbors (m : Halfedge_Mesh) (i n t v e f : Nat) : Halfedge_Mesh :=
  { m with halfedges := updAssoc i (fun _ => ⟨n, t, v, e, f⟩) m.halfedges }

def setNext (m : Halfedge_Mesh) (i n : Nat) : Halfedge_Mesh :=
  { m with halfedges := updAssoc i (fun h => { h with next := n }) m.halfedges }

def setHVertex (m : Halfedge_Mesh) (i v : Nat) : Halfedge_Mesh :=
  { m with halfedges := updAssoc i (fun h => { h with vertex := v }) m.halfedges }

def setHFace (m : Halfedge_Mesh) (i f : Nat) : Halfedge_Mesh :=
  { m with halfedges := updAssoc i (fun h => { h with face := f }) m.halfedges }

def setVHalfedge (m : Halfedge_Mesh) (i h : Nat) : Halfedge_Mesh :=
  { m with vertices := updAssoc i (fun v => { v with halfedge := h }) m.vertices }

def setVPos (m : Halfedge_Mesh) (i : Nat) (p : Vec3) : Halfedge_Mesh :=
  { m with vertices := updAssoc i (fun v => { v with pos := p }) m.vertices }

def setVNewPos (m : Halfedge_Mesh) (i : Nat) (p : Vec3) : Halfedge_Mesh :=
  { m with vertices := updAssoc i (fun v => { v with new_pos := p }) m.vertices }

def setVIsNew (m : Halfedge_Mesh) (i : Nat) (b : Bool) : Halfedge_Mesh :=
  { m with vertices := updAssoc i (fun v => { v with is_new := b }) m.vertices }

def setEHalfedge (m : Halfedge_Mesh) (i h : Nat) : Halfedge_Mesh :=
  { m with edges := updAssoc i (fun e => { e with halfedge := h }) m.edges }

def setENewPos (m : Halfedge_Mesh) (i : Nat) (p : Vec3) : Halfedge_Mesh :=
  { m with edges := updAssoc i (fun e => { e with new_pos := p }) m.edges }

def setEIsNew (m : Halfedge_Mesh) (i : Nat) (b : Bool) : Halfedge_Mesh :=
  { m with edges := updAssoc i (fun e => { e with is_new := b }) m.edges }

def setFHalfedge (m : Halfedge_Mesh) (i h : Nat) : Halfedge_Mesh :=
  { m with faces := updAssoc i (fun f => { f with halfedge := h }) m.faces }

/-- `new_vertex()`: append a fresh, default-initialised vertex; the fresh id
is `m.fresh` (read it before calling). -/
def allocV (m : Halfedge_Mesh) : Halfedge_Mesh :=
  { m with vertices := m.vertices ++ [(m.fresh, default)], fresh := m.fresh + 1 }

/-- `new_edge()`. -/
def allocE (m : Halfedge_Mesh) : Halfedge_Mesh :=
  { m with edges := m.edges ++ [(m.fresh, default)], fresh := m.fresh + 1 }

/-- `new_face(boundary = false)`. -/
def allocF (m : Halfedge_Mesh) : Halfedge_Mesh :=
  { m with faces := m.faces ++ [(m.fresh, default)], fresh := m.fresh + 1 }

/-- `new_halfedge()`. -/
def allocH (m : Halfedge_Mesh) : Halfedge_Mesh :=
  { m with halfedges := m.halfedges ++ [(m.fresh, default)], fresh := m.fresh + 1 }

/-- `erase(VertexRef)`: mark the element; idempotent, storage retained until
compaction. -/
def eraseV (m : Halfedge_Mesh) (i : Nat) : Halfedge_Mesh :=
  if i ∈ m.deadV then m else { m with deadV := m.deadV ++ [i] }

def eraseE (m : Halfedge_Mesh) (i : Nat) : Halfedge_Mesh :=
  if i ∈ m.deadE then m else { m with deadE := m.deadE ++ [i] }

def eraseF (m : Halfedge_Mesh) (i : Nat) : Halfedge_Mesh :=
  if i ∈ m.deadF then m else { m with deadF := m.deadF ++ [i] }

def eraseH (m : Halfedge_Mesh) (i : Nat) : Halfedge_Mesh :=
  if i ∈ m.deadH then m else { m with deadH := m.deadH ++ [i] }

/-- `do_erase()`: compaction pass, physically removing marked elements. -/
def compactErased (m : Halfedge_Mesh) : Halfedge_Mesh :=
  { m with
    halfedges := m.halfedges.filter (fun p => !(m.deadH.contains p.1))
    vertices := m.vertices.filter (fun p => !(m.deadV.contains p.1))
    edges := m.edges.filter (fun p => !(m.deadE.contains p.1))
    faces := m.faces.filter (fun p => !(m.deadF.contains p.1))
    deadH := [], deadV := [], deadE := [], deadF := [] }

/-- `n_vertices()`; per the spec the counts reflect live (non-marked)
elements only. -/
def n_vertices (m : Halfedge_Mesh) : Nat :=
  m.vertices.countP (fun p => !(m.deadV.contains p.1))

def n_edges (m : Halfedge_Mesh) : Nat :=
  m.edges.countP (fun p => !(m.deadE.contains p.1))

def n_faces (m : Halfedge_Mesh) : Nat :=
  m.faces.countP (fun p => !(m.deadF.contains p.1))

def n_halfedges (m : Halfedge_Mesh) : Nat :=
  m.halfedges.countP (fun p => !(m.deadH.contains p.1))

/-- Fuel bound for the do/while traversals of the source: one more than the
number of half-edge slots, enough for any closed cycle in the mesh. -/
def hfuel (m : Halfedge_Mesh) : Nat := m.halfedges.length + 1

/-- Technical well-formedness used by counting lemmas: every id already
marked erased is below the id counter, so freshly allocated elements are
never born marked. -/
def freshBound (m : Halfedge_Mesh) : Bool :=
  m.deadV.all (· < m.fresh) && m.deadE.all (· < m.fresh) &&
  m.deadF.all (· < m.fresh) && m.deadH.all (· < m.fresh)

end Halfedge_Mesh

open Halfedge_Mesh

/-- Fuel-driven core of `get_outgoing_halfedges`: do-while pushing the
current half-edge and stepping `h = h->twin()->next()` until back at the
representative. -/
def outgoingAux (m : Halfedge_Mesh) (h0 : Nat) : Nat → Nat → List Nat
  | 0, _ => []
  | fuel + 1, h =>
    h :: (let h' := m.next (m.twin h)
          if h' = h0 then [] else outgoingAux m h0 fuel h')

/-- `get_outgoing_halfedges(v)` (clockwise traversal of the outgoing fan). -/
def get_outgoing_halfedges (m : Halfedge_Mesh) (v : Nat) : List Nat :=
  outgoingAux m (m.vhalfedge v) (m.hfuel) (m.vhalfedge v)

/-- `get_outgoing_halfedges(v, pred)` — the source filters by the predicate
while traversing, which is the same as filtering the full fan. -/
def get_outgoing_halfedges_p (m : Halfedge_Mesh) (v : Nat) (pred : Nat → Bool) :
    List Nat :=
  (get_outgoing_halfedges m v).filter pred

/-- `get_neighbors(v)` (clockwise neighbors). -/
def get_neighbors (m : Halfedge_Mesh) (v : Nat) : List Nat :=
  (get_outgoing_halfedges m v).map (fun h => m.hvertex (m.twin h))

/-- Fuel-driven core of `get_last_halfedge`: `hh = hh->next()` until
`hh->next() == h`. -/
def lastAux (m : Halfedge_Mesh) (h : Nat) : Nat → Nat → Nat
  | 0, hh => hh
  | fuel + 1, hh =>
    let hh' := m.next hh
    if m.next hh' = h then hh' else lastAux m h fuel hh'

/-- `get_last_halfedge(h)`: the half-edge whose `next` is `h`. -/
def get_last_halfedge (m : Halfedge_Mesh) (h : Nat) : Nat :=
  lastAux m h (m.hfuel) h

/-- Fuel-driven core of `get_boundary_halfedges`: push and step `next` until
back at the start. -/
def cycleAux (m : Halfedge_Mesh) (h0 : Nat) : Nat → Nat → List Nat
  | 0, _ => []
  | fuel + 1, hh =>
    hh :: (let hh' := m.next hh
           if hh' = h0 then [] else cycleAux m h0 fuel hh')

/-- `get_boundary_halfedges(h)`: the `next`-cycle through `h`. -/
def get_boundary_halfedges (m : Halfedge_Mesh) (h : Nat) : List Nat :=
  cycleAux m h (m.hfuel) h

/-- `get_vertices(f)` (counter-clockwise vertices of a face). -/
def get_vertices (m : Halfedge_Mesh) (f : Nat) : List Nat :=
  (get_boundary_halfedges m (m.fhalfedge f)).map (fun h => m.hvertex h)

/-- The rotate/reverse/pop reordering used by `get_incident_halfedges`. -/
def reorderFan (hs : List Nat) (h : Nat) : List Nat :=
  ((hs.dropWhile (· ≠ h) ++ hs.takeWhile (· ≠ h)).reverse).dropLast

/-- `get_incident_halfedges(e)` (counter-clockwise half-edges incident to
the two endpoints of `e`, excluding `e`'s own pair). -/
def get_incident_halfedges (m : Halfedge_Mesh) (e : Nat) : List Nat :=
  let he0 := m.ehalfedge e
  let he1 := m.twin he0
  let outgoing_halfedges0 := reorderFan (get_outgoing_halfedges m (m.hvertex he0)) he0
  let outgoing_halfedges1 := reorderFan (get_outgoing_halfedges m (m.hvertex he1)) he1
  outgoing_halfedges0 ++ outgoing_halfedges1

/-- `get_incident_faces(e)`. -/
def get_incident_faces_e (m : Halfedge_Mesh) (e : Nat) : List Nat :=
  let h := m.ehalfedge e
  [m.hface h, m.hface (m.twin h)]

/-- `get_incident_faces(v)` (clockwise incident faces). -/
def get_incident_faces_v (m : Halfedge_Mesh) (v : Nat) : List Nat :=
  (get_outgoing_halfedges m v).map (fun h => m.hface h)

/-- `get_incident_edges(v)` (clockwise incident edges). -/
def get_incident_edges (m : Halfedge_Mesh) (v : Nat) : List Nat :=
  (get_outgoing_halfedges m v).map (fun h => m.hedge h)

/-- `on_boundary(VertexRef)`. -/
def on_boundary_v (m : Halfedge_Mesh) (v : Nat) : Bool :=
  (get_outgoing_halfedges m v).any
    (fun h => m.boundary (m.hface h) || m.boundary (m.hface (m.twin h)))

/-- `on_boundary(EdgeRef)`. -/
def on_boundary_e (m : Halfedge_Mesh) (e : Nat) : Bool :=
  let h0 := m.ehalfedge e
  let h1 := m.twin h0
  m.boundary (m.hface h0) || m.boundary (m.hface h1)

/-- Modelled from the spec: `Vertex::degree()` lives in the element store
(`halfedge.h`), which is not under `src/`.  The spec's invariant 3 walks the
outgoing fan, and its "effective incident-edge count" (`num_incident_edges`,
which is in `src/` and adds one exactly on the boundary) equals the number
of incident edges; both fit the count of outgoing half-edges whose face is
not a boundary face. -/
def degree_v (m : Halfedge_Mesh) (v : Nat) : Nat :=
  ((get_outgoing_halfedges m v).filter
    (fun h => !(m.boundary (m.hface h)))).length

/-- `num_incident_edges(v)` (meshedit.cpp lines 259-262). -/
def num_incident_edges (m : Halfedge_Mesh) (v : Nat) : Nat :=
  if on_boundary_v m v then degree_v m v + 1 else degree_v m v

/-- `num_edges(f)`: length of the `next` do-while cycle from the face's
representative. -/
def num_edges (m : Halfedge_Mesh) (f : Nat) : Nat :=
  (get_boundary_halfedges m (m.fhalfedge f)).length

/-- Modelled from the spec: `Face::degree()` of the missing element store;
invariant 2 makes it the length of the face's `next` cycle (`num_edges` in
`src/` computes the same walk). -/
def degree_f (m : Halfedge_Mesh) (f : Nat) : Nat :=
  (get_boundary_halfedges m (m.fhalfedge f)).length

/-- Modelled from the spec: a vertex's degree is the number of its outgoing
half-edges; here counted over the store (every live half-edge whose source
is `v`), which agrees with the fan walk on a mesh satisfying invariant 3
and stays meaningful on any store. -/
def out_degree (m : Halfedge_Mesh) (v : Nat) : Nat :=
  m.halfedges.countP
    (fun p => !(m.deadH.contains p.1) && (p.2.vertex == v))

/-- `e->center()`: midpoint of the two endpoint positions (float in C++,
exact rationals here). -/
def edge_center (m : Halfedge_Mesh) (e : Nat) : Vec3 :=
  let h := m.ehalfedge e
  Vec3.smul (1 / 2) (Vec3.add (m.getV (m.hvertex h)).pos
                              (m.getV (m.hvertex (m.twin h))).pos)

/-- Modelled from the spec: `Vertex::neighborhood_center()` of the missing
element store — the centroid of the neighboring vertex positions, the
quantity tangential smoothing moves a vertex toward. -/
def neighborhood_center (m : Halfedge_Mesh) (v : Nat) : Vec3 :=
  let ns := get_neighbors m v
  Vec3.smul ((1 : Q) / Q.ofNat ns.length)
    (ns.foldl (fun a n => Vec3.add a (m.getV n).pos) Vec3.zero)

/-- Unsigned 32-bit subtraction, as the `unsigned int` arithmetic of the
guard expressions in `collapse_edge` (wraps instead of truncating). -/
def u32sub (a b : Nat) : Nat := (a + 2 ^ 32 - b) % 2 ^ 32

/-- Success path of `erase_vertex` (everything after the two rejection
checks of the source). -/
def erase_vertex_body (m : Halfedge_Mesh) (v : Nat) :
    Halfedge_Mesh × Option Nat :=
  let face := m.fresh
  let m := m.allocF
  let outgoing_halfedges := get_outgoing_halfedges m v
  let m := outgoing_halfedges.foldl (fun m h =>
    let h1 := m.next h
    let tw := m.twin h
    let m := m.setVHalfedge (m.hvertex tw) h1
    let h0 := get_last_halfedge m tw
    m.setNext h0 h1) m
  let bdry_halfedges :=
    get_boundary_halfedges m (m.next (outgoing_halfedges.headD 0))
  let m := bdry_halfedges.foldl (fun m h => m.setHFace h face) m
  let m := m.setFHalfedge face (bdry_halfedges.headD 0)
  let m := m.eraseV v
  let m := outgoing_halfedges.foldl (fun m h =>
    let m := m.eraseE (m.hedge h)
    let m := m.eraseF (m.hface h)
    let m := m.eraseH (m.twin h)
    m.eraseH h) m
  (m, some face)

/-- `Halfedge_Mesh::erase_vertex(v)`: replace `v` and its incident edges and
faces by a single face; rejects boundary vertices and vertices with a
too-small neighbor. -/
def Halfedge_Mesh.erase_vertex (m : Halfedge_Mesh) (v : Nat) :
    Halfedge_Mesh × Option Nat :=
  if on_boundary_v m v then (m, none) else
  if (get_neighbors m v).any (fun ngbr => num_incident_edges m ngbr < 3) then
    (m, none)
  else erase_vertex_body m v

/-- Walk `next` from a half-edge, retargeting faces, until the stop
half-edge is reached (the interior loop of `erase_edge`). -/
def setFacesUntil (stop fc : Nat) : Nat → Nat → Halfedge_Mesh → Halfedge_Mesh
  | 0, _, m => m
  | fuel + 1, h, m =>
    if h = stop then m
    else setFacesUntil stop fc fuel (m.next h) (m.setHFace h fc)

/-- Success path of `erase_edge` (everything after the three rejection
checks of the source). -/
def erase_edge_body (m : Halfedge_Mesh) (e : Nat) :
    Halfedge_Mesh × Option Nat :=
  let h0 := m.ehalfedge e
  let h1 := m.twin h0
  let face := m.fresh
  let m := m.allocF
  let h00 := m.next h0
  let h10 := m.next h1
  let h01 := get_last_halfedge m h0
  let h11 := get_last_halfedge m h1
  let m := m.setNeighbors h01 h10 (m.twin h01) (m.hvertex h01) (m.hedge h01) face
  let m := m.setNeighbors h11 h00 (m.twin h11) (m.hvertex h11) (m.hedge h11) face
  let m := setFacesUntil h11 face (m.hfuel + m.hfuel) h00 m
  let m := m.setVHalfedge (m.hvertex h0) h10
  let m := m.setVHalfedge (m.hvertex h1) h00
  let m := m.setFHalfedge face h00
  let m := m.eraseE e
  let m := m.eraseF (m.hface h0)
  let m := m.eraseF (m.hface h1)
  let m := m.eraseH h0
  let m := m.eraseH h1
  (m, some face)

/-- The per-endpoint degree floor of `erase_edge`: a boundary endpoint
must keep degree at least 2, an interior one at least 3. -/
def erase_edge_degree_reject (m : Halfedge_Mesh) (v : Nat) : Bool :=
  if on_boundary_v m v then degree_v m v ≤ 1 else degree_v m v ≤ 2

/-- `Halfedge_Mesh::erase_edge(e)`: merge the two faces of `e` into one. -/
def Halfedge_Mesh.erase_edge (m : Halfedge_Mesh) (e : Nat) :
    Halfedge_Mesh × Option Nat :=
  if on_boundary_e m e then (m, none) else
  if erase_edge_degree_reject m (m.hvertex (m.ehalfedge e)) then (m, none) else
  if erase_edge_degree_reject m (m.hvertex (m.twin (m.ehalfedge e))) then
    (m, none)
  else erase_edge_body m e

/-- `collapse_half(h, m)`: collapse one side of an edge collapse, handling
the adjacent-triangle special case. -/
def collapse_half (h : Nat) (m : Halfedge_Mesh) : Halfedge_Mesh × Nat :=
  let h0 := m.next h
  let h1 := get_last_halfedge m h
  let v0 := m.fresh
  let m := m.allocV
  if num_edges m (m.hface h) = 3 then
    let m := m.eraseH h
    let m := m.eraseH h0
    let m := m.eraseH h1
    let m := m.eraseE (m.hedge h0)
    let m := m.eraseE (m.hedge h1)
    let m := m.eraseF (m.hface h0)
    let h0' := m.twin h1
    let h1' := m.twin h0
    let e0 := m.fresh
    let m := m.allocE
    let v1 := m.hvertex h1'
    let m := m.setVHalfedge v0 h0'
    let m := m.setVHalfedge v1 h1'
    let m := m.setEHalfedge e0 h0'
    let m := m.setNeighbors h0' (m.next h0') h1' v0 e0 (m.hface h0')
    let m := m.setNeighbors h1' (m.next h1') h0' v1 e0 (m.hface h1')
    (m, v0)
  else
    let f0 := m.hface h
    let m := m.setVHalfedge v0 h0
    let m := m.setFHalfedge f0 h0
    let m := m.setHVertex h0 v0
    let m := m.setNext h1 h0
    let m := m.eraseH h
    (m, v0)

/-- The inside half-edge chosen by `collapse_edge` (the twin is taken when
the representative lies on the boundary face). -/
def collapse_inside_h (m : Halfedge_Mesh) (e : Nat) : Nat :=
  if m.boundary (m.hface (m.ehalfedge e)) then m.twin (m.ehalfedge e)
  else m.ehalfedge e

/-- The `common_neighbors` list of `collapse_edge`: the apex vertex of each
adjacent triangular face (the twin-side face only counts off the
boundary). -/
def collapse_common_neighbors (m : Halfedge_Mesh) (e : Nat) : List Nat :=
  let h := collapse_inside_h m e
  let on_bdry := on_boundary_e m e
  (if num_edges m (m.hface h) = 3 then [m.hvertex (m.next (m.next h))]
   else []) ++
  (if !on_bdry && num_edges m (m.hface (m.twin h)) = 3 then
     [m.hvertex (m.next (m.next (m.twin h)))]
   else [])

/-- Success path of `collapse_edge` (everything after the flap guards of
the source). -/
def collapse_edge_body (m : Halfedge_Mesh) (e : Nat) :
    Halfedge_Mesh × Option Nat :=
  let h := collapse_inside_h m e
  let v0 := m.hvertex h
  let v1 := m.hvertex (m.twin h)
  let on_bdry := on_boundary_e m e
  let p := edge_center m e
  let outgoing_halfedges0 := get_outgoing_halfedges m v0
  let outgoing_halfedges1 := get_outgoing_halfedges m v1
  let r := collapse_half h m
  let r2 :=
    if !on_bdry then
      let m := r.1
      let h0 := m.vhalfedge r.2
      let m := m.eraseV r.2
      let r' := collapse_half (m.twin h) m
      (r'.1.setHVertex h0 r'.2, r'.2)
    else
      let m := r.1
      (m.setNext (get_last_halfedge m (m.twin h)) (m.next (m.twin h)), r.2)
  let m := r2.1
  let v := r2.2
  let m := outgoing_halfedges0.foldl (fun m hh => m.setHVertex hh v) m
  let m := outgoing_halfedges1.foldl (fun m hh => m.setHVertex hh v) m
  let m := m.setVPos v p
  let m := m.eraseV v0
  let m := m.eraseV v1
  let m := m.eraseE e
  let m := m.eraseH h
  let m := m.eraseH (m.twin h)
  (m, some v)

/-- `Halfedge_Mesh::collapse_edge(e)`: merge the two endpoints of `e` into
one vertex placed at the edge midpoint; rejects collapses that would pinch a
triangle apex below the minimum incident-edge floor. -/
def Halfedge_Mesh.collapse_edge (m : Halfedge_Mesh) (e : Nat) :
    Halfedge_Mesh × Option Nat :=
  if (collapse_common_neighbors m e).length = 1 &&
     u32sub (num_incident_edges m (m.hvertex (collapse_inside_h m e)) +
             num_incident_edges m (m.hvertex (m.twin (collapse_inside_h m e))))
       3 < 2 then (m, none) else
  if (collapse_common_neighbors m e).length = 1 &&
     u32sub (num_incident_edges m ((collapse_common_neighbors m e).headD 0))
       1 < 2 then (m, none) else
  if (collapse_common_neighbors m e).length = 2 &&
     (collapse_common_neighbors m e).any
       (fun v => u32sub (num_incident_edges m v) 1 < 2) then (m, none)
  else collapse_edge_body m e

/-- `Halfedge_Mesh::inset_vertex(f)` — stub in the source, always rejects. -/
def Halfedge_Mesh.inset_vertex (m : Halfedge_Mesh) (f : Nat) :
    Halfedge_Mesh × Option Nat := (m, none)

/-- `Halfedge_Mesh::flip_edge(e)`: rotate the edge inside its two adjacent
faces; no rejection branch. -/
def Halfedge_Mesh.flip_edge (m : Halfedge_Mesh) (e : Nat) :
    Halfedge_Mesh × Option Nat :=
  let h1 := m.ehalfedge e
  let h2 := m.next h1
  let h0 := get_last_halfedge m h1
  let h3 := m.twin h1
  let h4 := m.next h3
  let h5 := get_last_halfedge m h3
  let v0 := m.hvertex (m.twin h2)
  let v1 := m.hvertex h1
  let v2 := m.hvertex (m.twin h4)
  let v3 := m.hvertex h3
  let f0 := m.hface h1
  let f1 := m.hface h3
  let m := m.setVHalfedge v0 h3
  let m := m.setVHalfedge v1 h4
  let m := m.setVHalfedge v2 h1
  let m := m.setVHalfedge v3 h2
  let m := m.setFHalfedge f0 h1
  let m := m.setFHalfedge f1 h3
  let m := m.setNeighbors h0 h4 (m.twin h0) (m.hvertex h0) (m.hedge h0) f0
  let m := m.setNeighbors h1 (m.next h2) h3 v2 (m.hedge h1) f0
  let m := m.setNeighbors h2 h3 (m.twin h2) (m.hvertex h2) (m.hedge h2) f1
  let m := m.setNeighbors h3 (m.next h4) h1 v0 (m.hedge h3) f1
  let m := m.setNeighbors h4 h1 (m.twin h4) (m.hvertex h4) (m.hedge h4) f0
  let m := m.setNeighbors h5 h2 (m.twin h5) (m.hvertex h5) (m.hedge h5) f1
  (m, some e)

/-- `Halfedge_Mesh::split_edge(e)`: insert a vertex at the midpoint of `e`,
splitting both adjacent faces (written for two triangles; the source has an
open TODO for the boundary case); no rejection branch. -/
def Halfedge_Mesh.split_edge (m : Halfedge_Mesh) (e : Nat) :
    Halfedge_Mesh × Option Nat :=
  let v := m.fresh
  let m := m.allocV
  let m := m.setVPos v (edge_center m e)
  let e0 := e
  let e1 := m.fresh
  let m := m.allocE
  let e2 := m.fresh
  let m := m.allocE
  let e3 := m.fresh
  let m := m.allocE
  let f0 := m.hface (m.ehalfedge e)
  let f1 := m.hface (m.twin (m.ehalfedge e))
  let f2 := m.fresh
  let m := m.allocF
  let f3 := m.fresh
  let m := m.allocF
  let h0 := m.ehalfedge e
  let h1 := m.next h0
  let h2 := get_last_halfedge m h0
  let h3 := m.twin h0
  let h4 := m.next h3
  let h5 := get_last_halfedge m h3
  let h6 := m.fresh
  let m := m.allocH
  let h7 := m.fresh
  let m := m.allocH
  let h8 := m.fresh
  let m := m.allocH
  let h9 := m.fresh
  let m := m.allocH
  let h10 := m.fresh
  let m := m.allocH
  let h11 := m.fresh
  let m := m.allocH
  let v0 := m.hvertex h0
  let v1 := m.hvertex h5
  let v2 := m.hvertex h1
  let v3 := m.hvertex h2
  let m := m.setVHalfedge v h0
  let m := m.setVHalfedge v0 h7
  let m := m.setVHalfedge v1 h5
  let m := m.setVHalfedge v2 h1
  let m := m.setVHalfedge v3 h2
  let m := m.setEHalfedge e0 h0
  let m := m.setEHalfedge e1 h8
  let m := m.setEHalfedge e2 h10
  let m := m.setEHalfedge e3 h11
  let m := m.setFHalfedge f0 h0
  let m := m.setFHalfedge f1 h3
  let m := m.setFHalfedge f2 h7
  let m := m.setFHalfedge f3 h10
  let m := m.setNeighbors h0 h1 h3 v e0 f0
  let m := m.setNeighbors h1 h6 (m.twin h1) v2 (m.hedge h1) f0
  let m := m.setNeighbors h2 h7 (m.twin h2) v3 (m.hedge h2) f2
  let m := m.setNeighbors h3 h11 h0 v2 e0 f1
  let m := m.setNeighbors h4 h9 (m.twin h4) v0 (m.hedge h4) f3
  let m := m.setNeighbors h5 h3 (m.twin h5) v1 (m.hedge h5) f1
  let m := m.setNeighbors h6 h0 h8 v3 e1 f0
  let m := m.setNeighbors h7 h8 h10 v0 e2 f2
  let m := m.setNeighbors h8 h2 h6 v e1 f2
  let m := m.setNeighbors h9 h10 h11 v1 e3 f3
  let m := m.setNeighbors h10 h4 h7 v e2 f3
  let m := m.setNeighbors h11 h5 h9 v e3 f1
  (m, some v)

/-- `Halfedge_Mesh::bisect_edge(e)` — stub in the source, always rejects. -/
def Halfedge_Mesh.bisect_edge (m : Halfedge_Mesh) (e : Nat) :
    Halfedge_Mesh × Option Nat := (m, none)

/-- `Halfedge_Mesh::inset_face(f)` — stub in the source, always rejects. -/
def Halfedge_Mesh.inset_face (m : Halfedge_Mesh) (f : Nat) :
    Halfedge_Mesh × Option Nat := (m, none)

/-- `Halfedge_Mesh::extrude_vertex(v)` — stub in the source, always
rejects. -/
def Halfedge_Mesh.extrude_vertex (m : Halfedge_Mesh) (v : Nat) :
    Halfedge_Mesh × Option Nat := (m, none)

/-- First `merge` overload of the source (merge the two vertices delimiting
the edge of `h0`). -/
def mergeVerts (h0 : Nat) (m : Halfedge_Mesh) : Halfedge_Mesh × Nat :=
  let h1 := m.twin h0
  let e0 := m.hedge h0
  let v0 := m.hvertex h0
  let v1 := m.hvertex h1
  let outgoing_halfedges0 := get_outgoing_halfedges_p m v0 (fun h => h != h0)
  let outgoing_halfedges1 := get_outgoing_halfedges_p m v1 (fun h => h != h1)
  let v := m.fresh
  let m := m.allocV
  let m := outgoing_halfedges0.foldl (fun m h => m.setVHalfedge v h) m
  let m := outgoing_halfedges1.foldl (fun m h => m.setVHalfedge v h) m
  let m := m.eraseV v0
  let m := m.eraseV v1
  let m := m.eraseE e0
  let m := m.eraseH h0
  let m := m.eraseH h1
  (m, v)

/-- Second `merge` overload of the source (merge two edges sharing a vertex
of a triangle being collapsed away). -/
def mergeEdges (h0a h1a : Nat) (m : Halfedge_Mesh) : Halfedge_Mesh × Nat :=
  let h0 := m.twin h0a
  let h1 := m.twin h1a
  let h2 := m.twin h0
  let h3 := m.twin h1
  let h4 := m.next h2
  let h5 := m.twin h4
  let v0 := m.hvertex h0
  let v1 := m.hvertex h3
  let v2 := m.hvertex h1
  let e0 := m.hedge h4
  let e1 := m.hedge h1
  let e2 := m.hedge h0
  let f0 := m.hface h2
  let outgoing_halfedges0 := get_outgoing_halfedges_p m v0 (fun h => h != h4)
  let outgoing_halfedges1 :=
    get_outgoing_halfedges_p m v1 (fun h => h != h5 && h != h3)
  let outgoing_halfedges2 := get_outgoing_halfedges_p m v2 (fun h => h != h2)
  let v := m.fresh
  let m := m.allocV
  let m := m.setVHalfedge v h0
  let m := outgoing_halfedges0.foldl (fun m h => m.setHVertex h v) m
  let m := outgoing_halfedges1.foldl (fun m h => m.setHVertex h v) m
  let m := m.setVHalfedge v2 (outgoing_halfedges2.headD 0)
  let e := m.fresh
  let m := m.allocE
  let m := m.setEHalfedge e h0
  let m := m.setNeighbors h0 (m.next h0) h1 v e (m.hface h0)
  let m := m.setNeighbors h1 (m.next h1) h0 v2 e (m.hface h1)
  let m := m.setNext (get_last_halfedge m h5) (m.next h5)
  let m := m.eraseV v0
  let m := m.eraseV v1
  let m := m.eraseE e0
  let m := m.eraseE e1
  let m := m.eraseE e2
  let m := m.eraseF f0
  let m := m.eraseH h2
  let m := m.eraseH h3
  let m := m.eraseH h4
  let m := m.eraseH h5
  (m, v)

/-- Is `i` a live (allocated, not marked erased) half-edge? -/
def isLiveH (m : Halfedge_Mesh) (i : Nat) : Bool :=
  m.halfedges.any (fun p => p.1 == i) && !(m.deadH.contains i)

def isLiveV (m : Halfedge_Mesh) (i : Nat) : Bool :=
  m.vertices.any (fun p => p.1 == i) && !(m.deadV.contains i)

def isLiveE (m : Halfedge_Mesh) (i : Nat) : Bool :=
  m.edges.any (fun p => p.1 == i) && !(m.deadE.contains i)

def isLiveF (m : Halfedge_Mesh) (i : Nat) : Bool :=
  m.faces.any (fun p => p.1 == i) && !(m.deadF.contains i)

/-- Invariant 2 walk: following `next` from `h0` must come back to `h0`,
visiting only live half-edges of the same face. -/
def nextCycleOkAux (m : Halfedge_Mesh) (h0 : Nat) : Nat → Nat → Bool
  | 0, _ => false
  | fuel + 1, hh =>
    isLiveH m hh && (m.hface hh == m.hface h0) &&
    (let hh' := m.next hh
     if hh' = h0 then true else nextCycleOkAux m h0 fuel hh')

/-- Invariant 3 walk: following `twin->next` from `h0` must come back to
`h0`, visiting only live half-edges out of the same vertex. -/
def fanOkAux (m : Halfedge_Mesh) (h0 : Nat) : Nat → Nat → Bool
  | 0, _ => false
  | fuel + 1, hh =>
    isLiveH m hh && (m.hvertex hh == m.hvertex h0) &&
    (let hh' := m.next (m.twin hh)
     if hh' = h0 then true else fanOkAux m h0 fuel hh')

/-- Modelled from the spec: the Validator (`Halfedge_Mesh::validate`, not
under `src/`) checks structural invariants 1-6 over all live elements and
that no live element still references a marked-erased one, reporting "ok"
exactly when all hold. -/
def validateOk (m : Halfedge_Mesh) : Bool :=
  m.halfedges.all (fun p =>
    m.deadH.contains p.1 ||
    (m.twin (m.twin p.1) == p.1 &&
     isLiveH m (m.next p.1) && isLiveH m (m.twin p.1) &&
     isLiveV m (m.hvertex p.1) && isLiveE m (m.hedge p.1) &&
     isLiveF m (m.hface p.1) &&
     nextCycleOkAux m p.1 m.hfuel p.1 &&
     fanOkAux m p.1 m.hfuel p.1)) &&
  m.vertices.all (fun p =>
    m.deadV.contains p.1 ||
    (isLiveH m (m.vhalfedge p.1) && (m.hvertex (m.vhalfedge p.1) == p.1))) &&
  m.edges.all (fun p =>
    m.deadE.contains p.1 ||
    (isLiveH m (m.ehalfedge p.1) && (m.hedge (m.ehalfedge p.1) == p.1) &&
     (m.twin (m.ehalfedge p.1) != m.ehalfedge p.1) &&
     (m.hedge (m.twin (m.ehalfedge p.1)) == p.1) &&
     (m.halfedges.countP
        (fun q => !(m.deadH.contains q.1) && (q.2.edge == p.1)) == 2))) &&
  m.faces.all (fun p =>
    m.deadF.contains p.1 ||
    (isLiveH m (m.fhalfedge p.1) && (m.hface (m.fhalfedge p.1) == p.1) &&
     decide (3 ≤ num_edges m p.1)))

/-- `validate()`: run the Validator, then compact (compaction only happens
when the checks pass; on failure the mesh is returned as it stands). -/
def Halfedge_Mesh.validate (m : Halfedge_Mesh) : Halfedge_Mesh × Bool :=
  if validateOk m then (m.compactErased, true) else (m, false)

/-- `collapse_side(h, m)` — collapse one side of a face collapse, picking
the merge overload by face degree; calls `validate()` like the source (the
returned error is ignored there). -/
def collapse_side (h : Nat) (m : Halfedge_Mesh) : Halfedge_Mesh × Nat :=
  let r := if num_edges m (m.hface h) = 3 then
             mergeEdges (get_last_halfedge m h) (m.next h) m
           else mergeVerts h m
  ((Halfedge_Mesh.validate r.1).1, r.2)

/-- Success path of `collapse_face` (everything after the two rejection
checks of the source). -/
def collapse_face_body (m : Halfedge_Mesh) (f : Nat) :
    Halfedge_Mesh × Option Nat :=
  let bdry_halfedges := get_boundary_halfedges m (m.fhalfedge f)
  let r := bdry_halfedges.foldl
    (fun (acc : Halfedge_Mesh × Nat) h => collapse_side (acc.1.twin h) acc.1)
    (m, 0)
  (r.1.eraseF f, some r.2)

/-- `Halfedge_Mesh::collapse_face(f)`: collapse the whole face to a single
vertex; rejects when an adjacent triangle apex would drop below the floor
or when fewer than two outgoing half-edges would remain. -/
def Halfedge_Mesh.collapse_face (m : Halfedge_Mesh) (f : Nat) :
    Halfedge_Mesh × Option Nat :=
  if (get_boundary_halfedges m (m.fhalfedge f)).any (fun h =>
       !(on_boundary_e m (m.hedge h)) &&
       num_edges m (m.hface (m.twin h)) = 3 &&
       num_incident_edges m (m.hvertex (m.next (m.next (m.twin h)))) < 3) then
    (m, none) else
  if ((get_boundary_halfedges m (m.fhalfedge f)).foldl (fun acc h =>
        acc ++ get_outgoing_halfedges_p m (m.hvertex h)
          (fun hh => m.hface hh != f && m.hface (m.twin hh) != f))
        ([] : List Nat)).length < 2 then (m, none)
  else collapse_face_body m f

/-- One iteration of the `triangulate` face loop: leave triangles alone,
split a quad by one diagonal, zig-zag split a larger polygon. -/
def triangulateFace (m : Halfedge_Mesh) (f : Nat) : Halfedge_Mesh :=
  let bdry_halfedges := get_boundary_halfedges m (m.fhalfedge f)
  let verts := get_vertices m f
  let n_verts := bdry_halfedges.length
  if n_verts = 3 then m
  else if n_verts = 4 then
    let v0 := verts.getD 0 0
    let v1 := verts.getD 1 0
    let v2 := verts.getD 2 0
    let v3 := verts.getD 3 0
    let e0 := m.fresh
    let m := m.allocE
    let f0 := m.fresh
    let m := m.allocF
    let h0 := bdry_halfedges.getD 0 0
    let h1 := bdry_halfedges.getD 1 0
    let h2 := m.fresh
    let m := m.allocH
    let h3 := m.fresh
    let m := m.allocH
    let h4 := bdry_halfedges.getD 2 0
    let h5 := bdry_halfedges.getD 3 0
    let m := m.setVHalfedge v0 h0
    let m := m.setVHalfedge v1 h1
    let m := m.setVHalfedge v2 h4
    let m := m.setVHalfedge v3 h5
    let m := m.setEHalfedge e0 h2
    let m := m.setFHalfedge f h3
    let m := m.setFHalfedge f0 h2
    let m := m.setHFace h0 f0
    let m := m.setNeighbors h1 h2 (m.twin h1) v1 (m.hedge h1) f0
    let m := m.setNeighbors h2 h0 h3 v2 e0 f0
    let m := m.setNeighbors h3 h4 h2 v0 e0 f
    m.setNext h5 h3
  else
    let m := (List.range (n_verts / 2)).foldl (fun (m : Halfedge_Mesh) (i : Nat) =>
      let v0 := verts.getD (i * 2) 0
      let v1 := verts.getD ((i * 2 + 1) % n_verts) 0
      let v2 := verts.getD ((i * 2 + 2) % n_verts) 0
      let e0 := m.fresh
      let m := m.allocE
      let f0 := m.fresh
      let m := m.allocF
      let h0 := bdry_halfedges.getD (i * 2) 0
      let h1 := bdry_halfedges.getD ((i * 2 + 1) % n_verts) 0
      let h2 := m.fresh
      let m := m.allocH
      let h3 := m.fresh
      let m := m.allocH
      let m := m.setVHalfedge v0 h0
      let m := m.setVHalfedge v1 h1
      let m := m.setEHalfedge e0 h2
      let m := m.setFHalfedge f h3
      let m := m.setFHalfedge f0 h2
      let m := m.setNeighbors h0 h1 (m.twin h0) v0 (m.hedge h0) f0
      let m := m.setNeighbors h1 h2 (m.twin h1) v1 (m.hedge h1) f0
      let m := m.setNeighbors h2 h0 h3 v2 e0 f0
      m.setNeighbors h3 h3 h2 v0 e0 f) m
    if n_verts % 2 != 0 then
      let m := (List.range (n_verts / 2 - 1)).foldl (fun (m : Halfedge_Mesh) (i : Nat) =>
        let v0 := verts.getD (i * 2) 0
        let v1 := verts.getD ((i * 2 + 2) % n_verts) 0
        let h3 := m.twin (get_last_halfedge m (m.vhalfedge v0))
        let h4 := m.twin (get_last_halfedge m (m.vhalfedge v1))
        m.setNext h3 h4) m
      let v0 := verts.getD (n_verts - 3) 0
      let h3 := m.twin (get_last_halfedge m (m.vhalfedge v0))
      let h4 := bdry_halfedges.getD (n_verts - 1) 0
      let m := m.setNext h3 h4
      m.setNext h4 (m.twin (get_last_halfedge m (m.vhalfedge (verts.getD 0 0))))
    else
      (List.range (n_verts / 2)).foldl (fun (m : Halfedge_Mesh) (i : Nat) =>
        let v0 := verts.getD (i * 2) 0
        let v1 := verts.getD ((i * 2 + 2) % n_verts) 0
        let h3 := m.twin (get_last_halfedge m (m.vhalfedge v0))
        let h4 := m.twin (get_last_halfedge m (m.vhalfedge v1))
        m.setNext h3 h4) m

/-- Position-indexed iteration over the (possibly growing) face list, as the
source iterates `faces` with a list iterator while appending new faces. -/
def triangulateAux : Nat → Nat → Halfedge_Mesh → Halfedge_Mesh
  | 0, _, m => m
  | fuel + 1, i, m =>
    if i < m.faces.length then
      triangulateAux fuel (i + 1)
        (triangulateFace m ((m.faces.getD i (0, default)).1))
    else m

/-- `Halfedge_Mesh::triangulate()`: split every face with more than three
sides into triangles. -/
def Halfedge_Mesh.triangulate (m : Halfedge_Mesh) : Halfedge_Mesh :=
  triangulateAux (m.faces.length + m.halfedges.length + 1) 0 m

/-- Step 1 of `loop_subdivide`: Loop vertex stencil into `Vertex::new_pos`,
clearing `is_new`. -/
def loopStep1 (m : Halfedge_Mesh) : Halfedge_Mesh :=
  (m.vertices.map (·.1)).foldl (fun m v =>
    let m := m.setVIsNew v false
    let deg : Q := Q.ofNat (degree_v m v)
    let neighbors := get_neighbors m v
    let u : Q := if neighbors.length = 3 then 3 / 16 else 3 / (8 * deg)
    m.setVNewPos v (Vec3.add
      (Vec3.smul (1 - deg * u) (m.getV v).pos)
      (Vec3.smul u
        (neighbors.foldl (fun a n => Vec3.add a (m.getV n).pos) Vec3.zero)))) m

/-- Step 2 of `loop_subdivide`: 3/8-3/8-1/8-1/8 edge stencil into
`Edge::new_pos`, clearing `is_new`. -/
def loopStep2 (m : Halfedge_Mesh) : Halfedge_Mesh :=
  (m.edges.map (·.1)).foldl (fun m e =>
    let m := m.setEIsNew e false
    let h0 := m.ehalfedge e
    let v0 := m.hvertex (m.next (m.next h0))
    let v1 := m.hvertex (m.next (m.next (m.twin h0)))
    m.setENewPos e (Vec3.add
      (Vec3.smul (2 * (3 / 8)) (edge_center m e))
      (Vec3.smul (1 / 8) (Vec3.add (m.getV v0).pos (m.getV v1).pos)))) m

/-- Step 3 body of `loop_subdivide`: split one original edge, mark the four
resulting incident edges alternately old/new, stamp the new vertex. -/
def loopStep3Body (m : Halfedge_Mesh) (e : Nat) : Halfedge_Mesh :=
  let new_pos := (m.getE e).new_pos
  let r := m.split_edge e
  let m := r.1
  let v := r.2.getD 0
  let incident_edges := get_incident_edges m v
  let m := match incident_edges with
    | e0 :: e1 :: e2 :: e3 :: _ =>
      let m := m.setEIsNew e0 false
      let m := m.setEIsNew e1 true
      let m := m.setEIsNew e2 false
      m.setEIsNew e3 true
    | _ => m
  let m := m.setVNewPos v new_pos
  m.setVIsNew v true

/-- Step 3 of `loop_subdivide`: split the first `n_edges()` entries of the
edge list (the original edges; splitting appends the new ones behind). -/
def loopStep3 (m : Halfedge_Mesh) : Halfedge_Mesh :=
  ((m.edges.take m.n_edges).map (·.1)).foldl loopStep3Body m

/-- Step 4 of `loop_subdivide`: flip every new edge connecting an old and a
new vertex. -/
def loopStep4 (m : Halfedge_Mesh) : Halfedge_Mesh :=
  (m.edges.map (·.1)).foldl (fun m e =>
    if (m.getE e).is_new then
      let v0 := m.hvertex (m.ehalfedge e)
      let v1 := m.hvertex (m.twin (m.ehalfedge e))
      if (m.getV v0).is_new != (m.getV v1).is_new then (m.flip_edge e).1 else m
    else m) m

/-- Step 5 of `loop_subdivide`: commit the new positions. -/
def loopStep5 (m : Halfedge_Mesh) : Halfedge_Mesh :=
  (m.vertices.map (·.1)).foldl (fun m v => m.setVPos v (m.getV v).new_pos) m

/-- `Halfedge_Mesh::loop_subdivide()`. -/
def Halfedge_Mesh.loop_subdivide (m : Halfedge_Mesh) : Halfedge_Mesh :=
  loopStep5 (loopStep4 (loopStep3 (loopStep2 (loopStep1 m))))

/-- `dev(v, offset)`: deviation of (degree + offset) from 6, in the
wrap-around `unsigned int` arithmetic of the source. -/
def dev (m : Halfedge_Mesh) (v : Nat) (offset : Int) : Nat :=
  let deg : Nat := (((degree_v m v : Int) + offset) % (2 ^ 32 : Int)).toNat
  if deg ≥ 6 then deg - 6 else 6 - deg

/-- The all-triangle / no-boundary-face entry check of `isotropic_remesh`. -/
def ir_badface (m : Halfedge_Mesh) : Bool :=
  m.faces.any (fun p => p.2.boundary || degree_f m p.1 != 3)

/-- Mean edge length of `isotropic_remesh`; `elen` models the float
`Edge::length()`, which lives outside `src/`. -/
def ir_meanlen (elen : Halfedge_Mesh → Nat → Q) (m : Halfedge_Mesh) : Q :=
  (m.edges.foldl (fun a p => a + elen m p.1) 0) / Q.ofNat m.n_edges

/-- Split phase of `isotropic_remesh` (EPSLON is 0 in the source). -/
def ir_split (elen : Halfedge_Mesh → Nat → Q) (L : Q)
    (m : Halfedge_Mesh) : Halfedge_Mesh :=
  ((m.edges.take m.n_edges).map (·.1)).foldl (fun m e =>
    if Q.blt (4 * L / 3) (elen m e) then (m.split_edge e).1 else m) m

/-- The per-phase finite-normal check of `isotropic_remesh`; `nfinite`
models `isfinite` on the float `Vertex::normal()`, which lives outside
`src/`. -/
def anyNonFinite (nfinite : Halfedge_Mesh → Nat → Bool)
    (m : Halfedge_Mesh) : Bool :=
  m.vertices.any (fun p => !(nfinite m p.1))

/-- Modelled from the spec: `collapse_edge_erase` (declared outside `src/`)
is `collapse_edge` followed by the deferred-deletion compaction pass, per
the source comment "You should use collapse_edge_erase() instead". -/
def Halfedge_Mesh.collapse_edge_erase (m : Halfedge_Mesh) (e : Nat) :
    Halfedge_Mesh × Option Nat :=
  let r := m.collapse_edge e
  (r.1.compactErased, r.2)

/-- Successor of the edge-list entry with id `e` (the `next++` iterator
step of the collapse loop). -/
def edgeSucc (m : Halfedge_Mesh) (e : Nat) : Option Nat :=
  match (m.edges.map (·.1)).dropWhile (· ≠ e) with
  | _ :: x :: _ => some x
  | _ => none

/-- The while-loop advancing `next` past edges whose faces are incident to
the edge about to be collapsed. -/
def irSkipAux (m : Halfedge_Mesh) (ifaces : List Nat) :
    Nat → Option Nat → Option Nat
  | 0, nx => nx
  | fuel + 1, nx =>
    match nx with
    | none => none
    | some n =>
      if ifaces.any (fun f =>
           f == m.hface (m.ehalfedge n) || f == m.hface (m.twin (m.ehalfedge n)))
      then irSkipAux m ifaces fuel (edgeSucc m n)
      else some n

/-- The collapse loop of `isotropic_remesh`, with its iterator dance
(`i` advances by 3 on a collapse, the iterator is re-derived when a
collapse is rejected). -/
def irCollapseAux (elen : Halfedge_Mesh → Nat → Q) (L : Q) :
    Nat → Nat → Nat → Option Nat → Halfedge_Mesh → Halfedge_Mesh
  | 0, _, _, _, m => m
  | fuel + 1, i, num, cur, m =>
    if i < num then
      match cur with
      | none => m
      | some e =>
        let nx := edgeSucc m e
        if Q.blt (elen m e) (4 * L / 5) then
          let incident_faces := get_incident_faces_e m e
          let nx := irSkipAux m incident_faces (m.edges.length + 1) nx
          let r := m.collapse_edge_erase e
          match r.2 with
          | some _ => irCollapseAux elen L fuel (i + 2 + 1) num nx r.1
          | none => irCollapseAux elen L fuel (i + 1) num (edgeSucc r.1 e) r.1
        else irCollapseAux elen L fuel (i + 1) num nx m
    else m

/-- Collapse phase of `isotropic_remesh`. -/
def ir_collapse (elen : Halfedge_Mesh → Nat → Q) (L : Q)
    (m : Halfedge_Mesh) : Halfedge_Mesh :=
  let num := m.n_edges
  irCollapseAux elen L (num + 1) 0 num (m.edges.map (·.1)).head? m

/-- Flip phase of `isotropic_remesh`: flip when it lowers the total
degree-6 deviation of the four corners. -/
def ir_flip (m : Halfedge_Mesh) : Halfedge_Mesh :=
  (m.edges.map (·.1)).foldl (fun m e =>
    let h0 := m.ehalfedge e
    let h1 := m.twin h0
    let v0 := m.hvertex h0
    let v1 := m.hvertex h1
    let v2 := m.hvertex (m.next (m.next h0))
    let v3 := m.hvertex (m.next (m.next h1))
    let deviation := dev m v0 0 + dev m v1 0 + dev m v2 0 + dev m v3 0
    if deviation > dev m v0 (-1) + dev m v1 (-1) + dev m v2 1 + dev m v3 1
    then (m.flip_edge e).1 else m) m

/-- One pass of the tangential smoothing phase: damped move toward the
neighborhood centroid with the normal component removed (`vnormal` models
the float `Vertex::normal()`). -/
def irSmoothPass (vnormal : Halfedge_Mesh → Nat → Vec3)
    (m : Halfedge_Mesh) : Halfedge_Mesh :=
  let m := (m.vertices.map (·.1)).foldl (fun m v =>
    let c := neighborhood_center m v
    let p := (m.getV v).pos
    let d := Vec3.sub c p
    let N := vnormal m v
    let d := Vec3.sub d (Vec3.smul (Vec3.dot d N) N)
    m.setVNewPos v (Vec3.add p (Vec3.smul (1 / 5) d))) m
  (m.vertices.map (·.1)).foldl (fun m v => m.setVPos v (m.getV v).new_pos) m

/-- Smoothing phase of `isotropic_remesh`: 15 passes; the `isfinite`
conditions inside the loop only log and never change state or abort. -/
def ir_smooth (vnormal : Halfedge_Mesh → Nat → Vec3)
    (m : Halfedge_Mesh) : Halfedge_Mesh :=
  (List.range 15).foldl (fun m _ => irSmoothPass vnormal m) m

/-- `Halfedge_Mesh::isotropic_remesh()`: reject non-triangle or bounded
meshes, then split / collapse / flip / smooth, validating and checking
normal finiteness after the first three phases. -/
def Halfedge_Mesh.isotropic_remesh (elen : Halfedge_Mesh → Nat → Q)
    (vnormal : Halfedge_Mesh → Nat → Vec3)
    (nfinite : Halfedge_Mesh → Nat → Bool)
    (m : Halfedge_Mesh) : Halfedge_Mesh × Bool :=
  if ir_badface m then (m, false) else
  let L := ir_meanlen elen m
  let m1 := ir_split elen L m
  if !(validateOk m1) then (m1, false) else
  let m1 := m1.compactErased
  if anyNonFinite nfinite m1 then (m1, false) else
  let m2 := ir_collapse elen L m1
  if !(validateOk m2) then (m2, false) else
  let m2 := m2.compactErased
  if anyNonFinite nfinite m2 then (m2, false) else
  let m3 := ir_flip m2
  if !(validateOk m3) then (m3, false) else
  let m3 := m3.compactErased
  if anyNonFinite nfinite m3 then (m3, false) else
  (ir_smooth vnormal m3, true)

/-- `Halfedge_Mesh::simplify()`: the source builds empty quadric maps and a
queue, touches nothing, and returns false. -/
def Halfedge_Mesh.simplify (m : Halfedge_Mesh) : Halfedge_Mesh × Bool :=
  (m, false)

/-- A tetrahedron: 4 vertices (ids 0-3), 4 faces (4-7), 6 edges (8-13),
12 half-edges (14-25); closed, all triangles, no boundary. -/
def tetra : Halfedge_Mesh where
  halfedges :=
    [(14, ⟨15, 19, 0, 8, 4⟩), (15, ⟨16, 25, 1, 9, 4⟩), (16, ⟨14, 20, 2, 10, 4⟩),
     (17, ⟨18, 22, 0, 11, 5⟩), (18, ⟨19, 23, 3, 12, 5⟩), (19, ⟨17, 14, 1, 8, 5⟩),
     (20, ⟨21, 16, 0, 10, 6⟩), (21, ⟨22, 24, 2, 13, 6⟩), (22, ⟨20, 17, 3, 11, 6⟩),
     (23, ⟨24, 18, 1, 12, 7⟩), (24, ⟨25, 21, 3, 13, 7⟩), (25, ⟨23, 15, 2, 9, 7⟩)]
  vertices :=
    [(0, ⟨14, ⟨0, 0, 0⟩, Vec3.zero, false⟩), (1, ⟨15, ⟨1, 0, 0⟩, Vec3.zero, false⟩),
     (2, ⟨16, ⟨0, 1, 0⟩, Vec3.zero, false⟩), (3, ⟨18, ⟨0, 0, 1⟩, Vec3.zero, false⟩)]
  edges :=
    [(8, ⟨14, Vec3.zero, false⟩), (9, ⟨15, Vec3.zero, false⟩),
     (10, ⟨16, Vec3.zero, false⟩), (11, ⟨17, Vec3.zero, false⟩),
     (12, ⟨18, Vec3.zero, false⟩), (13, ⟨21, Vec3.zero, false⟩)]
  faces :=
    [(4, ⟨14, false, Vec3.zero⟩), (5, ⟨17, false, Vec3.zero⟩),
     (6, ⟨20, false, Vec3.zero⟩), (7, ⟨23, false, Vec3.zero⟩)]
  deadH := []
  deadV := []
  deadE := []
  deadF := []
  fresh := 26

/-- A single square face (ids: vertices 0-3, interior face 4, boundary face
5, edges 6-9, half-edges 10-17); both faces have degree 4. -/
def quadMesh : Halfedge_Mesh where
  halfedges :=
    [(10, ⟨11, 14, 0, 6, 4⟩), (11, ⟨12, 15, 1, 7, 4⟩),
     (12, ⟨13, 16, 2, 8, 4⟩), (13, ⟨10, 17, 3, 9, 4⟩),
     (14, ⟨17, 10, 1, 6, 5⟩), (15, ⟨14, 11, 2, 7, 5⟩),
     (16, ⟨15, 12, 3, 8, 5⟩), (17, ⟨16, 13, 0, 9, 5⟩)]
  vertices :=
    [(0, ⟨10, ⟨0, 0, 0⟩, Vec3.zero, false⟩), (1, ⟨11, ⟨1, 0, 0⟩, Vec3.zero, false⟩),
     (2, ⟨12, ⟨1, 1, 0⟩, Vec3.zero, false⟩), (3, ⟨13, ⟨0, 1, 0⟩, Vec3.zero, false⟩)]
  edges :=
    [(6, ⟨10, Vec3.zero, false⟩), (7, ⟨11, Vec3.zero, false⟩),
     (8, ⟨12, Vec3.zero, false⟩), (9, ⟨13, Vec3.zero, false⟩)]
  faces := [(4, ⟨10, false, Vec3.zero⟩), (5, ⟨14, true, Vec3.zero⟩)]
  deadH := []
  deadV := []
  deadE := []
  deadF := []
  fresh := 18

/-- Constant edge-length oracle (all edges length 1). -/
def elen0 : Halfedge_Mesh → Nat → Q := fun _ _ => 1

/-- Zero normal oracle for the smoothing phase. -/
def nrm0 : Halfedge_Mesh → Nat → Vec3 := fun _ _ => Vec3.zero

/-- Finiteness oracle that reports "finite" exactly while vertex 0 still
sits at the origin (its position in `tetra`). -/
def fin0 : Halfedge_Mesh → Nat → Bool := fun m _ => (m.getV 0).pos == ⟨0, 0, 0⟩

/-- C10: `inset_vertex`, `bisect_edge`, `inset_face` and `extrude_vertex`
return none on every input and `simplify` returns false, all leaving the
mesh unchanged. -/
theorem c10_stubs_reject_unchanged (m : Halfedge_Mesh) (a b c d : Nat) :
    m.inset_vertex a = (m, none) ∧ m.bisect_edge b = (m, none) ∧
    m.inset_face c = (m, none) ∧ m.extrude_vertex d = (m, none) ∧
    m.simplify = (m, false) :=
  ⟨rfl, rfl, rfl, rfl, rfl⟩

/-- C9: `flip_edge` and `split_edge` have no rejection branch: on every
mesh and every edge, `flip_edge` returns its argument edge and `split_edge`
returns the freshly allocated vertex; neither ever returns none. -/
theorem c9_flip_split_never_none (m : Halfedge_Mesh) (e : Nat) :
    (m.flip_edge e).2 = some e ∧ (m.split_edge e).2 = some m.fresh :=
  ⟨rfl, rfl⟩

/-- C1: `quadMesh` satisfies the validator's invariants, the boundary edge
6 is accepted by `split_edge` (which returns the new vertex 18), yet the
validator rejects the resulting mesh — the successful operator broke
invariant 2 on the two degree-4 faces. -/
theorem c1_split_edge_boundary_breaks_validator :
    validateOk quadMesh = true ∧ on_boundary_e quadMesh 6 = true ∧
    (quadMesh.split_edge 6).2 = some 18 ∧
    validateOk (quadMesh.split_edge 6).1 = false := by decide

theorem erase_vertex_body_ne (m : Halfedge_Mesh) (v : Nat) :
    (erase_vertex_body m v).2 ≠ none := by
  unfold erase_vertex_body; dsimp only; simp

theorem erase_edge_body_ne (m : Halfedge_Mesh) (e : Nat) :
    (erase_edge_body m e).2 ≠ none := by
  unfold erase_edge_body; dsimp only; simp

theorem collapse_edge_body_ne (m : Halfedge_Mesh) (e : Nat) :
    (collapse_edge_body m e).2 ≠ none := by
  unfold collapse_edge_body; dsimp only; simp

theorem collapse_face_body_ne (m : Halfedge_Mesh) (f : Nat) :
    (collapse_face_body m f).2 ≠ none := by
  unfold collapse_face_body; dsimp only; simp

/-- C2: whenever a local operator returns "no result" (none), the mesh it
returns is exactly the input mesh — all rejection checks run before any
mutation (the three bevel operators have no rejection branch at all and so
satisfy the claim vacuously). -/
theorem c2_none_leaves_mesh_unchanged (m : Halfedge_Mesh)
    (v e f a b c d : Nat) :
    ((m.erase_vertex v).2 = none → (m.erase_vertex v).1 = m) ∧
    ((m.erase_edge e).2 = none → (m.erase_edge e).1 = m) ∧
    ((m.collapse_edge e).2 = none → (m.collapse_edge e).1 = m) ∧
    ((m.collapse_face f).2 = none → (m.collapse_face f).1 = m) ∧
    ((m.flip_edge e).2 = none → (m.flip_edge e).1 = m) ∧
    ((m.split_edge e).2 = none → (m.split_edge e).1 = m) ∧
    ((m.inset_vertex a).2 = none → (m.inset_vertex a).1 = m) ∧
    ((m.bisect_edge b).2 = none → (m.bisect_edge b).1 = m) ∧
    ((m.inset_face c).2 = none → (m.inset_face c).1 = m) ∧
    ((m.extrude_vertex d).2 = none → (m.extrude_vertex d).1 = m) := by
  refine ⟨?_, ?_, ?_, ?_, ?_, ?_, fun _ => rfl, fun _ => rfl, fun _ => rfl,
    fun _ => rfl⟩
  · unfold Halfedge_Mesh.erase_vertex
    split
    · exact fun _ => rfl
    · split
      · exact fun _ => rfl
      · exact fun h => absurd h (erase_vertex_body_ne m v)
  · unfold Halfedge_Mesh.erase_edge
    split
    · exact fun _ => rfl
    · split
      · exact fun _ => rfl
      · split
        · exact fun _ => rfl
        · exact fun h => absurd h (erase_edge_body_ne m e)
  · unfold Halfedge_Mesh.collapse_edge
    split
    · exact fun _ => rfl
    · split
      · exact fun _ => rfl
      · split
        · exact fun _ => rfl
        · exact fun h => absurd h (collapse_edge_body_ne m e)
  · unfold Halfedge_Mesh.collapse_face
    split
    · exact fun _ => rfl
    · split
      · exact fun _ => rfl
      · exact fun h => absurd h (collapse_face_body_ne m f)
  · exact fun h =>
      absurd h (by rw [show (m.flip_edge e).2 = some e from rfl]; simp)
  · exact fun h =>
      absurd h (by rw [show (m.split_edge e).2 = some m.fresh from rfl]; simp)

/-- Witness for C2: `erase_vertex` rejects the boundary vertex 0 of the
quad mesh and leaves the mesh exactly unchanged. -/
theorem c2_witness : (quadMesh.erase_vertex 0).1 = quadMesh :=
  (c2_none_leaves_mesh_unchanged quadMesh 0 0 0 0 0 0 0).1 (by decide)

/-- C3 (amended): `erase_vertex` returns none whenever the vertex lies on a
boundary face, and whenever some neighbor's effective incident-edge count is
below 3 *before* the removal (the source checks the current count, not the
count after removing the shared edge). -/
theorem c3_amended_rejection (m : Halfedge_Mesh) (v : Nat)
    (h : on_boundary_v m v = true ∨
         ((get_neighbors m v).any fun n => num_incident_edges m n < 3) = true) :
    (m.erase_vertex v).2 = none := by
  unfold Halfedge_Mesh.erase_vertex
  rcases h with h | h
  · simp [h]
  · split
    · rfl
    · simp [h]

/-- Counterexample for C3 as stated: on the tetrahedron, removing vertex 0
would drop every neighbor's effective incident-edge count to 2 (so the
claim demands rejection), yet `erase_vertex` succeeds. -/
theorem c3_counterexample :
    ((get_neighbors tetra 0).any
        fun n => num_incident_edges tetra n - 1 < 3) = true ∧
    (tetra.erase_vertex 0).2 ≠ none := by decide

/-- Witness for C3 (amended): the boundary vertex 0 of the quad mesh is
rejected. -/
theorem c3_witness : (quadMesh.erase_vertex 0).2 = none :=
  c3_amended_rejection quadMesh 0 (Or.inl (by decide))

theorem get_outgoing_ne_nil (m : Halfedge_Mesh) (v : Nat) :
    get_outgoing_halfedges m v ≠ [] := by
  unfold get_outgoing_halfedges Halfedge_Mesh.hfuel
  simp [outgoingAux]

theorem num_incident_edges_pos (m : Halfedge_Mesh) (v : Nat) :
    1 ≤ num_incident_edges m v := by
  unfold num_incident_edges
  split
  · omega
  case isFalse hb =>
    unfold degree_v
    unfold on_boundary_v at hb
    rw [List.any_eq_true] at hb
    push_neg at hb
    cases hfan : get_outgoing_halfedges m v with
    | nil => exact absurd hfan (get_outgoing_ne_nil m v)
    | cons a t =>
      have ha : a ∈ get_outgoing_halfedges m v := by
        rw [hfan]; exact List.mem_cons_self a t
      have := hb a ha
      have hfa : m.boundary (m.hface a) = false := by
        rcases Bool.or_eq_false_iff.mp (Bool.eq_false_iff.mpr this) with ⟨h1, _⟩
        exact h1
      simp [List.filter, hfa]

theorem collapse_common_neighbors_len (m : Halfedge_Mesh) (e : Nat) :
    (collapse_common_neighbors m e).length ≤ 2 := by
  unfold collapse_common_neighbors
  dsimp only
  split <;> split <;> simp

/-- C4 (amended): when `collapse_edge` succeeds, every triangle-apex common
neighbor it inspected had effective incident-edge count at least 3 before
the collapse — i.e. at least 2 after losing the merged edge; the resulting
degree can be 2, not 3 as claimed. -/
theorem c4_amended_apex_floor (m : Halfedge_Mesh) (e : Nat)
    (hs : (m.collapse_edge e).2 ≠ none) :
    ∀ v ∈ collapse_common_neighbors m e, 3 ≤ num_incident_edges m v := by
  intro v hv
  unfold Halfedge_Mesh.collapse_edge at hs
  split at hs
  case isTrue => exact absurd rfl hs
  case isFalse hg1 =>
    split at hs
    case isTrue => exact absurd rfl hs
    case isFalse hg2 =>
      split at hs
      case isTrue => exact absurd rfl hs
      case isFalse hg3 =>
        have hle := collapse_common_neighbors_len m e
        have hpos := num_incident_edges_pos m v
        rcases hlen : (collapse_common_neighbors m e).length with _ | k
        · rw [List.length_eq_zero] at hlen
          rw [hlen] at hv
          exact absurd hv (List.not_mem_nil v)
        · rcases k with _ | k
          · rw [List.length_eq_one] at hlen
            obtain ⟨x, hx⟩ := hlen
            rw [hx] at hv
            rcases List.mem_singleton.mp hv with rfl
            have hcond : ¬(u32sub (num_incident_edges m v) 1 < 2) := by
              intro hc
              apply hg2
              rw [hx]
              simp [hc]
            unfold u32sub at hcond
            omega
          · rcases k with _ | k
            · have hany : ((collapse_common_neighbors m e).any
                  fun w => u32sub (num_incident_edges m w) 1 < 2) = false := by
                by_contra hc
                rw [Bool.not_eq_false] at hc
                exact hg3 (by simp [hlen, hc])
              rw [List.any_eq_false] at hany
              have := hany v hv
              simp only [decide_eq_true_eq] at this
              unfold u32sub at this
              omega
            · rw [hlen] at hle
              omega

/-- Counterexample for C4 as stated: collapsing edge 8 of the tetrahedron
succeeds, vertex 2 is neither endpoint of the edge and survives, yet its
degree in the resulting mesh is 2, not at least 3. -/
theorem c4_counterexample :
    (tetra.collapse_edge 8).2 = some 28 ∧
    tetra.hvertex (tetra.ehalfedge 8) = 0 ∧
    tetra.hvertex (tetra.twin (tetra.ehalfedge 8)) = 1 ∧
    isLiveV (tetra.collapse_edge 8).1 2 = true ∧
    degree_v (tetra.collapse_edge 8).1 2 = 2 := by decide

/-- Witness for C4 (amended): the tetrahedron collapse succeeds and apex
vertex 2 indeed had effective incident-edge count at least 3 beforehand. -/
theorem c4_witness : 3 ≤ num_incident_edges tetra 2 :=
  c4_amended_apex_floor tetra 8 (by decide) 2 (by decide)

theorem getD_mem_of_lt {α : Type} (l : List α) (i : Nat) (d : α)
    (h : i < l.length) : l.getD i d ∈ l := by
  rw [List.getD_eq_getElem l d h]
  exact List.getElem_mem h

theorem triangulateFace_id (m : Halfedge_Mesh) (f : Nat)
    (h : num_edges m f = 3) : triangulateFace m f = m := by
  unfold triangulateFace
  unfold num_edges at h
  simp [h]

theorem triangulateAux_id (m : Halfedge_Mesh)
    (h : ∀ p ∈ m.faces, num_edges m p.1 = 3) :
    ∀ fuel i, triangulateAux fuel i m = m := by
  intro fuel
  induction fuel with
  | zero => intro i; rfl
  | succ n ih =>
    intro i
    unfold triangulateAux
    split
    case isTrue hlt =>
      rw [triangulateFace_id m _ (h _ (getD_mem_of_lt m.faces i (0, default) hlt))]
      exact ih (i + 1)
    case isFalse => rfl

/-- C8 (amended): on a mesh in which every face — the boundary faces
included — has exactly 3 sides, `triangulate` returns the mesh unchanged,
so in particular the vertex, edge and face counts are unchanged.  Boundary
faces are *not* excluded from triangulation: a boundary face with more than
3 sides is split like any other (see the counterexample). -/
theorem c8_amended_triangulate_id (m : Halfedge_Mesh)
    (h : ∀ p ∈ m.faces, num_edges m p.1 = 3) :
    m.triangulate = m :=
  triangulateAux_id m h _ 0

/-- Counterexample for C8 as stated: `triangulate` splits the degree-4
boundary face of the quad mesh (its cycle shrinks from 4 to 3 sides and two
faces are added in total), so boundary faces are not excluded. -/
theorem c8_counterexample :
    quadMesh.boundary 5 = true ∧ num_edges quadMesh 5 = 4 ∧
    num_edges quadMesh.triangulate 5 = 3 ∧
    quadMesh.triangulate.n_faces = 4 := by decide

/-- Witness for C8 (amended): the all-triangle tetrahedron is returned
unchanged. -/
theorem c8_witness : tetra.triangulate = tetra :=
  c8_amended_triangulate_id tetra (by decide)

theorem keys_updAssoc {α : Type} (k : Nat) (f : α → α) (l : List (Nat × α)) :
    (updAssoc k f l).map (·.1) = l.map (·.1) := by
  unfold updAssoc
  rw [List.map_map]
  apply List.map_congr_left
  intro p _
  by_cases h : p.1 = k <;> simp [h]

theorem countP_fst_updAssoc {α : Type} (k : Nat) (f : α → α)
    (l : List (Nat × α)) (q : Nat → Bool) :
    (updAssoc k f l).countP (fun p => q p.1) = l.countP (fun p => q p.1) := by
  unfold updAssoc
  rw [List.countP_map]
  apply List.countP_congr
  intro p _
  by_cases h : p.1 = k <;> simp [h]

theorem not_contains_of_all_lt (l : List Nat) (n : Nat)
    (hb : l.all (· < n) = true) : l.contains n = false := by
  rw [List.all_eq_true] at hb
  by_contra hc
  rw [Bool.not_eq_false] at hc
  rw [List.contains_eq_any_beq, List.any_eq_true] at hc
  obtain ⟨x, hx, hbeq⟩ := hc
  rw [Nat.beq_eq_true_eq] at hbeq
  have := hb x hx
  simp only [decide_eq_true_eq] at this
  omega

theorem all_lt_mono (l : List Nat) (a b : Nat) (h : l.all (· < a) = true)
    (hab : a ≤ b) : l.all (· < b) = true := by
  rw [List.all_eq_true] at h ⊢
  intro x hx
  have := h x hx
  simp only [decide_eq_true_eq] at this ⊢
  omega

namespace Halfedge_Mesh

@[simp] theorem nv_setNeighbors (m : Halfedge_Mesh) (i n t v e f : Nat) :
    (m.setNeighbors i n t v e f).n_vertices = m.n_vertices := rfl

@[simp] theorem nv_setNext (m : Halfedge_Mesh) (i n : Nat) :
    (m.setNext i n).n_vertices = m.n_vertices := rfl

@[simp] theorem nv_setHVertex (m : Halfedge_Mesh) (i v : Nat) :
    (m.setHVertex i v).n_vertices = m.n_vertices := rfl

@[simp] theorem nv_setHFace (m : Halfedge_Mesh) (i f : Nat) :
    (m.setHFace i f).n_vertices = m.n_vertices := rfl

@[simp] theorem nv_setEHalfedge (m : Halfedge_Mesh) (i h : Nat) :
    (m.setEHalfedge i h).n_vertices = m.n_vertices := rfl

@[simp] theorem nv_setENewPos (m : Halfedge_Mesh) (i : Nat) (p : Vec3) :
    (m.setENewPos i p).n_vertices = m.n_vertices := rfl

@[simp] theorem nv_setEIsNew (m : Halfedge_Mesh) (i : Nat) (b : Bool) :
    (m.setEIsNew i b).n_vertices = m.n_vertices := rfl

@[simp] theorem nv_setFHalfedge (m : Halfedge_Mesh) (i h : Nat) :
    (m.setFHalfedge i h).n_vertices = m.n_vertices := rfl

@[simp] theorem nv_setVHalfedge (m : Halfedge_Mesh) (i h : Nat) :
    (m.setVHalfedge i h).n_vertices = m.n_vertices := by
  unfold setVHalfedge n_vertices
  dsimp only
  exact countP_fst_updAssoc i _ m.vertices (fun k => !(m.deadV.contains k))

@[simp] theorem nv_setVPos (m : Halfedge_Mesh) (i : Nat) (p : Vec3) :
    (m.setVPos i p).n_vertices = m.n_vertices := by
  unfold setVPos n_vertices
  dsimp only
  exact countP_fst_updAssoc i _ m.vertices (fun k => !(m.deadV.contains k))

@[simp] theorem nv_setVNewPos (m : Halfedge_Mesh) (i : Nat) (p : Vec3) :
    (m.setVNewPos i p).n_vertices = m.n_vertices := by
  unfold setVNewPos n_vertices
  dsimp only
  exact countP_fst_updAssoc i _ m.vertices (fun k => !(m.deadV.contains k))

@[simp] theorem nv_setVIsNew (m : Halfedge_Mesh) (i : Nat) (b : Bool) :
    (m.setVIsNew i b).n_vertices = m.n_vertices := by
  unfold setVIsNew n_vertices
  dsimp only
  exact countP_fst_updAssoc i _ m.vertices (fun k => !(m.deadV.contains k))

@[simp] theorem nv_allocE (m : Halfedge_Mesh) :
    m.allocE.n_vertices = m.n_vertices := rfl

@[simp] theorem nv_allocF (m : Halfedge_Mesh) :
    m.allocF.n_vertices = m.n_vertices := rfl

@[simp] theorem nv_allocH (m : Halfedge_Mesh) :
    m.allocH.n_vertices = m.n_vertices := rfl

theorem nv_allocV (m : Halfedge_Mesh)
    (hb : m.deadV.all (· < m.fresh) = true) :
    m.allocV.n_vertices = m.n_vertices + 1 := by
  unfold allocV n_vertices
  rw [List.countP_append]
  simp only [List.countP_cons, List.countP_nil,
    not_contains_of_all_lt m.deadV m.fresh hb]
  simp

end Halfedge_Mesh
namespace Halfedge_Mesh

@[simp] theorem nf_setNeighbors (m : Halfedge_Mesh) (i n t v e f : Nat) :
    (m.setNeighbors i n t v e f).n_faces = m.n_faces := rfl

@[simp] theorem nf_setNext (m : Halfedge_Mesh) (i n : Nat) :
    (m.setNext i n).n_faces = m.n_faces := rfl

@[simp] theorem nf_setHVertex (m : Halfedge_Mesh) (i v : Nat) :
    (m.setHVertex i v).n_faces = m.n_faces := rfl

@[simp] theorem nf_setHFace (m : Halfedge_Mesh) (i f : Nat) :
    (m.setHFace i f).n_faces = m.n_faces := rfl

@[simp] theorem nf_setVHalfedge (m : Halfedge_Mesh) (i h : Nat) :
    (m.setVHalfedge i h).n_faces = m.n_faces := rfl

@[simp] theorem nf_setVPos (m : Halfedge_Mesh) (i : Nat) (p : Vec3) :
    (m.setVPos i p).n_faces = m.n_faces := rfl

@[simp] theorem nf_setVNewPos (m : Halfedge_Mesh) (i : Nat) (p : Vec3) :
    (m.setVNewPos i p).n_faces = m.n_faces := rfl

@[simp] theorem nf_setVIsNew (m : Halfedge_Mesh) (i : Nat) (b : Bool) :
    (m.setVIsNew i b).n_faces = m.n_faces := rfl

@[simp] theorem nf_setEHalfedge (m : Halfedge_Mesh) (i h : Nat) :
    (m.setEHalfedge i h).n_faces = m.n_faces := rfl

@[simp] theorem nf_setENewPos (m : Halfedge_Mesh) (i : Nat) (p : Vec3) :
    (m.setENewPos i p).n_faces = m.n_faces := rfl

@[simp] theorem nf_setEIsNew (m : Halfedge_Mesh) (i : Nat) (b : Bool) :
    (m.setEIsNew i b).n_faces = m.n_faces := rfl

@[simp] theorem nf_setFHalfedge (m : Halfedge_Mesh) (i h : Nat) :
    (m.setFHalfedge i h).n_faces = m.n_faces := by
  unfold setFHalfedge n_faces
  dsimp only
  exact countP_fst_updAssoc i _ m.faces (fun k => !(m.deadF.contains k))

@[simp] theorem nf_allocV (m : Halfedge_Mesh) :
    m.allocV.n_faces = m.n_faces := rfl

@[simp] theorem nf_allocE (m : Halfedge_Mesh) :
    m.allocE.n_faces = m.n_faces := rfl

@[simp] theorem nf_allocH (m : Halfedge_Mesh) :
    m.allocH.n_faces = m.n_faces := rfl

@[simp] theorem ne_setNeighbors (m : Halfedge_Mesh) (i n t v e f : Nat) :
    (m.setNeighbors i n t v e f).n_edges = m.n_edges := rfl

@[simp] theorem ne_setNext (m : Halfedge_Mesh) (i n : Nat) :
    (m.setNext i n).n_edges = m.n_edges := rfl

@[simp] theorem ne_setHVertex (m : Halfedge_Mesh) (i v : Nat) :
    (m.setHVertex i v).n_edges = m.n_edges := rfl

@[simp] theorem ne_setHFace (m : Halfedge_Mesh) (i f : Nat) :
    (m.setHFace i f).n_edges = m.n_edges := rfl

@[simp] theorem ne_setVHalfedge (m : Halfedge_Mesh) (i h : Nat) :
    (m.setVHalfedge i h).n_edges = m.n_edges := rfl

@[simp] theorem ne_setVPos (m : Halfedge_Mesh) (i : Nat) (p : Vec3) :
    (m.setVPos i p).n_edges = m.n_edges := rfl

@[simp] theorem ne_setVNewPos (m : Halfedge_Mesh) (i : Nat) (p : Vec3) :
    (m.setVNewPos i p).n_edges = m.n_edges := rfl

@[simp] theorem ne_setVIsNew (m : Halfedge_Mesh) (i : Nat) (b : Bool) :
    (m.setVIsNew i b).n_edges = m.n_edges := rfl

@[simp] theorem ne_setEHalfedge (m : Halfedge_Mesh) (i h : Nat) :
    (m.setEHalfedge i h).n_edges = m.n_edges := by
  unfold setEHalfedge n_edges
  dsimp only
  exact countP_fst_updAssoc i _ m.edges (fun k => !(m.deadE.contains k))

@[simp] theorem ne_setENewPos (m : Halfedge_Mesh) (i : Nat) (p : Vec3) :
    (m.setENewPos i p).n_edges = m.n_edges := by
  unfold setENewPos n_edges
  dsimp only
  exact countP_fst_updAssoc i _ m.edges (fun k => !(m.deadE.contains k))

@[simp] theorem ne_setEIsNew (m : Halfedge_Mesh) (i : Nat) (b : Bool) :
    (m.setEIsNew i b).n_edges = m.n_edges := by
  unfold setEIsNew n_edges
  dsimp only
  exact countP_fst_updAssoc i _ m.edges (fun k => !(m.deadE.contains k))

@[simp] theorem ne_setFHalfedge (m : Halfedge_Mesh) (i h : Nat) :
    (m.setFHalfedge i h).n_edges = m.n_edges := rfl

@[simp] theorem ne_allocV (m : Halfedge_Mesh) :
    m.allocV.n_edges = m.n_edges := rfl

@[simp] theorem ne_allocF (m : Halfedge_Mesh) :
    m.allocF.n_edges = m.n_edges := rfl

@[simp] theorem ne_allocH (m : Halfedge_Mesh) :
    m.allocH.n_edges = m.n_edges := rfl

theorem nf_allocF (m : Halfedge_Mesh)
    (hb : m.deadF.all (· < m.fresh) = true) :
    m.allocF.n_faces = m.n_faces + 1 := by
  unfold allocF n_faces
  rw [List.countP_append]
  simp only [List.countP_cons, List.countP_nil,
    not_contains_of_all_lt m.deadF m.fresh hb]
  simp

theorem ne_allocE (m : Halfedge_Mesh)
    (hb : m.deadE.all (· < m.fresh) = true) :
    m.allocE.n_edges = m.n_edges + 1 := by
  unfold allocE n_edges
  rw [List.countP_append]
  simp only [List.countP_cons, List.countP_nil,
    not_contains_of_all_lt m.deadE m.fresh hb]
  simp

@[simp] theorem deadV_setNeighbors (m : Halfedge_Mesh) (i n t v e f : Nat) :
    (m.setNeighbors i n t v e f).deadV = m.deadV := rfl

@[simp] theorem deadE_setNeighbors (m : Halfedge_Mesh) (i n t v e f : Nat) :
    (m.setNeighbors i n t v e f).deadE = m.deadE := rfl

@[simp] theorem deadF_setNeighbors (m : Halfedge_Mesh) (i n t v e f : Nat) :
    (m.setNeighbors i n t v e f).deadF = m.deadF := rfl

@[simp] theorem fresh_setNeighbors (m : Halfedge_Mesh) (i n t v e f : Nat) :
    (m.setNeighbors i n t v e f).fresh = m.fresh := rfl

@[simp] theorem deadV_setNext (m : Halfedge_Mesh) (i n : Nat) :
    (m.setNext i n).deadV = m.deadV := rfl

@[simp] theorem deadE_setNext (m : Halfedge_Mesh) (i n : Nat) :
    (m.setNext i n).deadE = m.deadE := rfl

@[simp] theorem deadF_setNext (m : Halfedge_Mesh) (i n : Nat) :
    (m.setNext i n).deadF = m.deadF := rfl

@[simp] theorem fresh_setNext (m : Halfedge_Mesh) (i n : Nat) :
    (m.setNext i n).fresh = m.fresh := rfl

@[simp] theorem deadV_setHVertex (m : Halfedge_Mesh) (i v : Nat) :
    (m.setHVertex i v).deadV = m.deadV := rfl

@[simp] theorem deadE_setHVertex (m : Halfedge_Mesh) (i v : Nat) :
    (m.setHVertex i v).deadE = m.deadE := rfl

@[simp] theorem deadF_setHVertex (m : Halfedge_Mesh) (i v : Nat) :
    (m.setHVertex i v).deadF = m.deadF := rfl

@[simp] theorem fresh_setHVertex (m : Halfedge_Mesh) (i v : Nat) :
    (m.setHVertex i v).fresh = m.fresh := rfl

@[simp] theorem deadV_setHFace (m : Halfedge_Mesh) (i f : Nat) :
    (m.setHFace i f).deadV = m.deadV := rfl

@[simp] theorem deadE_setHFace (m : Halfedge_Mesh) (i f : Nat) :
    (m.setHFace i f).deadE = m.deadE := rfl

@[simp] theorem deadF_setHFace (m : Halfedge_Mesh) (i f : Nat) :
    (m.setHFace i f).deadF = m.deadF := rfl

@[simp] theorem fresh_setHFace (m : Halfedge_Mesh) (i f : Nat) :
    (m.setHFace i f).fresh = m.fresh := rfl

@[simp] theorem deadV_setVHalfedge (m : Halfedge_Mesh) (i h : Nat) :
    (m.setVHalfedge i h).deadV = m.deadV := rfl

@[simp] theorem deadE_setVHalfedge (m : Halfedge_Mesh) (i h : Nat) :
    (m.setVHalfedge i h).deadE = m.deadE := rfl

@[simp] theorem deadF_setVHalfedge (m : Halfedge_Mesh) (i h : Nat) :
    (m.setVHalfedge i h).deadF = m.deadF := rfl

@[simp] theorem fresh_setVHalfedge (m : Halfedge_Mesh) (i h : Nat) :
    (m.setVHalfedge i h).fresh = m.fresh := rfl

@[simp] theorem deadV_setVPos (m : Halfedge_Mesh) (i : Nat) (p : Vec3) :
    (m.setVPos i p).deadV = m.deadV := rfl

@[simp] theorem deadE_setVPos (m : Halfedge_Mesh) (i : Nat) (p : Vec3) :
    (m.setVPos i p).deadE = m.deadE := rfl

@[simp] theorem deadF_setVPos (m : Halfedge_Mesh) (i : Nat) (p : Vec3) :
    (m.setVPos i p).deadF = m.deadF := rfl

@[simp] theorem fresh_setVPos (m : Halfedge_Mesh) (i : Nat) (p : Vec3) :
    (m.setVPos i p).fresh = m.fresh := rfl

@[simp] theorem deadV_setVNewPos (m : Halfedge_Mesh) (i : Nat) (p : Vec3) :
    (m.setVNewPos i p).deadV = m.deadV := rfl

@[simp] theorem deadE_setVNewPos (m : Halfedge_Mesh) (i : Nat) (p : Vec3) :
    (m.setVNewPos i p).deadE = m.deadE := rfl

@[simp] theorem deadF_setVNewPos (m : Halfedge_Mesh) (i : Nat) (p : Vec3) :
    (m.setVNewPos i p).deadF = m.deadF := rfl

@[simp] theorem fresh_setVNewPos (m : Halfedge_Mesh) (i : Nat) (p : Vec3) :
    (m.setVNewPos i p).fresh = m.fresh := rfl

@[simp] theorem deadV_setVIsNew (m : Halfedge_Mesh) (i : Nat) (b : Bool) :
    (m.setVIsNew i b).deadV = m.deadV := rfl

@[simp] theorem deadE_setVIsNew (m : Halfedge_Mesh) (i : Nat) (b : Bool) :
    (m.setVIsNew i b).deadE = m.deadE := rfl

@[simp] theorem deadF_setVIsNew (m : Halfedge_Mesh) (i : Nat) (b : Bool) :
    (m.setVIsNew i b).deadF = m.deadF := rfl

@[simp] theorem fresh_setVIsNew (m : Halfedge_Mesh) (i : Nat) (b : Bool) :
    (m.setVIsNew i b).fresh = m.fresh := rfl

@[simp] theorem deadV_setEHalfedge (m : Halfedge_Mesh) (i h : Nat) :
    (m.setEHalfedge i h).deadV = m.deadV := rfl

@[simp] theorem deadE_setEHalfedge (m : Halfedge_Mesh) (i h : Nat) :
    (m.setEHalfedge i h).deadE = m.deadE := rfl

@[simp] theorem deadF_setEHalfedge (m : Halfedge_Mesh) (i h : Nat) :
    (m.setEHalfedge i h).deadF = m.deadF := rfl

@[simp] theorem fresh_setEHalfedge (m : Halfedge_Mesh) (i h : Nat) :
    (m.setEHalfedge i h).fresh = m.fresh := rfl

@[simp] theorem deadV_setENewPos (m : Halfedge_Mesh) (i : Nat) (p : Vec3) :
    (m.setENewPos i p).deadV = m.deadV := rfl

@[simp] theorem deadE_setENewPos (m : Halfedge_Mesh) (i : Nat) (p : Vec3) :
    (m.setENewPos i p).deadE = m.deadE := rfl

@[simp] theorem deadF_setENewPos (m : Halfedge_Mesh) (i : Nat) (p : Vec3) :
    (m.setENewPos i p).deadF = m.deadF := rfl

@[simp] theorem fresh_setENewPos (m : Halfedge_Mesh) (i : Nat) (p : Vec3) :
    (m.setENewPos i p).fresh = m.fresh := rfl

@[simp] theorem deadV_setEIsNew (m : Halfedge_Mesh) (i : Nat) (b : Bool) :
    (m.setEIsNew i b).deadV = m.deadV := rfl

@[simp] theorem deadE_setEIsNew (m : Halfedge_Mesh) (i : Nat) (b : Bool) :
    (m.setEIsNew i b).deadE = m.deadE := rfl

@[simp] theorem deadF_setEIsNew (m : Halfedge_Mesh) (i : Nat) (b : Bool) :
    (m.setEIsNew i b).deadF = m.deadF := rfl

@[simp] theorem fresh_setEIsNew (m : Halfedge_Mesh) (i : Nat) (b : Bool) :
    (m.setEIsNew i b).fresh = m.fresh := rfl

@[simp] theorem deadV_setFHalfedge (m : Halfedge_Mesh) (i h : Nat) :
    (m.setFHalfedge i h).deadV = m.deadV := rfl

@[simp] theorem deadE_setFHalfedge (m : Halfedge_Mesh) (i h : Nat) :
    (m.setFHalfedge i h).deadE = m.deadE := rfl

@[simp] theorem deadF_setFHalfedge (m : Halfedge_Mesh) (i h : Nat) :
    (m.setFHalfedge i h).deadF = m.deadF := rfl

@[simp] theorem fresh_setFHalfedge (m : Halfedge_Mesh) (i h : Nat) :
    (m.setFHalfedge i h).fresh = m.fresh := rfl

@[simp] theorem deadV_allocV (m : Halfedge_Mesh) :
    m.allocV.deadV = m.deadV := rfl

@[simp] theorem deadE_allocV (m : Halfedge_Mesh) :
    m.allocV.deadE = m.deadE := rfl

@[simp] theorem deadF_allocV (m : Halfedge_Mesh) :
    m.allocV.deadF = m.deadF := rfl

@[simp] theorem fresh_allocV (m : Halfedge_Mesh) :
    m.allocV.fresh = m.fresh + 1 := rfl

@[simp] theorem deadV_allocE (m : Halfedge_Mesh) :
    m.allocE.deadV = m.deadV := rfl

@[simp] theorem deadE_allocE (m : Halfedge_Mesh) :
    m.allocE.deadE = m.deadE := rfl

@[simp] theorem deadF_allocE (m : Halfedge_Mesh) :
    m.allocE.deadF = m.deadF := rfl

@[simp] theorem fresh_allocE (m : Halfedge_Mesh) :
    m.allocE.fresh = m.fresh + 1 := rfl

@[simp] theorem deadV_allocF (m : Halfedge_Mesh) :
    m.allocF.deadV = m.deadV := rfl

@[simp] theorem deadE_allocF (m : Halfedge_Mesh) :
    m.allocF.deadE = m.deadE := rfl

@[simp] theorem deadF_allocF (m : Halfedge_Mesh) :
    m.allocF.deadF = m.deadF := rfl

@[simp] theorem fresh_allocF (m : Halfedge_Mesh) :
    m.allocF.fresh = m.fresh + 1 := rfl

@[simp] theorem deadV_allocH (m : Halfedge_Mesh) :
    m.allocH.deadV = m.deadV := rfl

@[simp] theorem deadE_allocH (m : Halfedge_Mesh) :
    m.allocH.deadE = m.deadE := rfl

@[simp] theorem deadF_allocH (m : Halfedge_Mesh) :
    m.allocH.deadF = m.deadF := rfl

@[simp] theorem fresh_allocH (m : Halfedge_Mesh) :
    m.allocH.fresh = m.fresh + 1 := rfl

end Halfedge_Mesh
namespace Halfedge_Mesh

@[simp] theorem vertices_setNeighbors (m : Halfedge_Mesh) (i n t v e f : Nat) :
    (m.setNeighbors i n t v e f).vertices = m.vertices := rfl

@[simp] theorem vertices_setNext (m : Halfedge_Mesh) (i n : Nat) :
    (m.setNext i n).vertices = m.vertices := rfl

@[simp] theorem vertices_setHVertex (m : Halfedge_Mesh) (i v : Nat) :
    (m.setHVertex i v).vertices = m.vertices := rfl

@[simp] theorem vertices_setHFace (m : Halfedge_Mesh) (i f : Nat) :
    (m.setHFace i f).vertices = m.vertices := rfl

@[simp] theorem keys_vertices_setVHalfedge (m : Halfedge_Mesh) (i h : Nat) :
    (m.setVHalfedge i h).vertices.map (fun p => p.1) = m.vertices.map (fun p => p.1) := by
  unfold setVHalfedge
  dsimp only
  exact keys_updAssoc i _ m.vertices

@[simp] theorem keys_vertices_setVPos (m : Halfedge_Mesh) (i : Nat) (p : Vec3) :
    (m.setVPos i p).vertices.map (fun p => p.1) = m.vertices.map (fun p => p.1) := by
  unfold setVPos
  dsimp only
  exact keys_updAssoc i _ m.vertices

@[simp] theorem keys_vertices_setVNewPos (m : Halfedge_Mesh) (i : Nat) (p : Vec3) :
    (m.setVNewPos i p).vertices.map (fun p => p.1) = m.vertices.map (fun p => p.1) := by
  unfold setVNewPos
  dsimp only
  exact keys_updAssoc i _ m.vertices

@[simp] theorem keys_vertices_setVIsNew (m : Halfedge_Mesh) (i : Nat) (b : Bool) :
    (m.setVIsNew i b).vertices.map (fun p => p.1) = m.vertices.map (fun p => p.1) := by
  unfold setVIsNew
  dsimp only
  exact keys_updAssoc i _ m.vertices

@[simp] theorem vertices_setEHalfedge (m : Halfedge_Mesh) (i h : Nat) :
    (m.setEHalfedge i h).vertices = m.vertices := rfl

@[simp] theorem vertices_setENewPos (m : Halfedge_Mesh) (i : Nat) (p : Vec3) :
    (m.setENewPos i p).vertices = m.vertices := rfl

@[simp] theorem vertices_setEIsNew (m : Halfedge_Mesh) (i : Nat) (b : Bool) :
    (m.setEIsNew i b).vertices = m.vertices := rfl

@[simp] theorem vertices_setFHalfedge (m : Halfedge_Mesh) (i h : Nat) :
    (m.setFHalfedge i h).vertices = m.vertices := rfl

@[simp] theorem keys_vertices_allocV (m : Halfedge_Mesh) :
    m.allocV.vertices.map (fun p => p.1) = m.vertices.map (fun p => p.1) ++ [m.fresh] := by
  unfold allocV
  simp

@[simp] theorem vertices_allocE (m : Halfedge_Mesh) :
    m.allocE.vertices = m.vertices := rfl

@[simp] theorem vertices_allocF (m : Halfedge_Mesh) :
    m.allocF.vertices = m.vertices := rfl

@[simp] theorem vertices_allocH (m : Halfedge_Mesh) :
    m.allocH.vertices = m.vertices := rfl

@[simp] theorem edges_setNeighbors (m : Halfedge_Mesh) (i n t v e f : Nat) :
    (m.setNeighbors i n t v e f).edges = m.edges := rfl

@[simp] theorem edges_setNext (m : Halfedge_Mesh) (i n : Nat) :
    (m.setNext i n).edges = m.edges := rfl

@[simp] theorem edges_setHVertex (m : Halfedge_Mesh) (i v : Nat) :
    (m.setHVertex i v).edges = m.edges := rfl

@[simp] theorem edges_setHFace (m : Halfedge_Mesh) (i f : Nat) :
    (m.setHFace i f).edges = m.edges := rfl

@[simp] theorem edges_setVHalfedge (m : Halfedge_Mesh) (i h : Nat) :
    (m.setVHalfedge i h).edges = m.edges := rfl

@[simp] theorem edges_setVPos (m : Halfedge_Mesh) (i : Nat) (p : Vec3) :
    (m.setVPos i p).edges = m.edges := rfl

@[simp] theorem edges_setVNewPos (m : Halfedge_Mesh) (i : Nat) (p : Vec3) :
    (m.setVNewPos i p).edges = m.edges := rfl

@[simp] theorem edges_setVIsNew (m : Halfedge_Mesh) (i : Nat) (b : Bool) :
    (m.setVIsNew i b).edges = m.edges := rfl

@[simp] theorem keys_edges_setEHalfedge (m : Halfedge_Mesh) (i h : Nat) :
    (m.setEHalfedge i h).edges.map (fun p => p.1) = m.edges.map (fun p => p.1) := by
  unfold setEHalfedge
  dsimp only
  exact keys_updAssoc i _ m.edges

@[simp] theorem keys_edges_setENewPos (m : Halfedge_Mesh) (i : Nat) (p : Vec3) :
    (m.setENewPos i p).edges.map (fun p => p.1) = m.edges.map (fun p => p.1) := by
  unfold setENewPos
  dsimp only
  exact keys_updAssoc i _ m.edges

@[simp] theorem keys_edges_setEIsNew (m : Halfedge_Mesh) (i : Nat) (b : Bool) :
    (m.setEIsNew i b).edges.map (fun p => p.1) = m.edges.map (fun p => p.1) := by
  unfold setEIsNew
  dsimp only
  exact keys_updAssoc i _ m.edges

@[simp] theorem edges_setFHalfedge (m : Halfedge_Mesh) (i h : Nat) :
    (m.setFHalfedge i h).edges = m.edges := rfl

@[simp] theorem edges_allocV (m : Halfedge_Mesh) :
    m.allocV.edges = m.edges := rfl

@[simp] theorem keys_edges_allocE (m : Halfedge_Mesh) :
    m.allocE.edges.map (fun p => p.1) = m.edges.map (fun p => p.1) ++ [m.fresh] := by
  unfold allocE
  simp

@[simp] theorem edges_allocF (m : Halfedge_Mesh) :
    m.allocF.edges = m.edges := rfl

@[simp] theorem edges_allocH (m : Halfedge_Mesh) :
    m.allocH.edges = m.edges := rfl

@[simp] theorem faces_setNeighbors (m : Halfedge_Mesh) (i n t v e f : Nat) :
    (m.setNeighbors i n t v e f).faces = m.faces := rfl

@[simp] theorem faces_setNext (m : Halfedge_Mesh) (i n : Nat) :
    (m.setNext i n).faces = m.faces := rfl

@[simp] theorem faces_setHVertex (m : Halfedge_Mesh) (i v : Nat) :
    (m.setHVertex i v).faces = m.faces := rfl

@[simp] theorem faces_setHFace (m : Halfedge_Mesh) (i f : Nat) :
    (m.setHFace i f).faces = m.faces := rfl

@[simp] theorem faces_setVHalfedge (m : Halfedge_Mesh) (i h : Nat) :
    (m.setVHalfedge i h).faces = m.faces := rfl

@[simp] theorem faces_setVPos (m : Halfedge_Mesh) (i : Nat) (p : Vec3) :
    (m.setVPos i p).faces = m.faces := rfl

@[simp] theorem faces_setVNewPos (m : Halfedge_Mesh) (i : Nat) (p : Vec3) :
    (m.setVNewPos i p).faces = m.faces := rfl

@[simp] theorem faces_setVIsNew (m : Halfedge_Mesh) (i : Nat) (b : Bool) :
    (m.setVIsNew i b).faces = m.faces := rfl

@[simp] theorem faces_setEHalfedge (m : Halfedge_Mesh) (i h : Nat) :
    (m.setEHalfedge i h).faces = m.faces := rfl

@[simp] theorem faces_setENewPos (m : Halfedge_Mesh) (i : Nat) (p : Vec3) :
    (m.setENewPos i p).faces = m.faces := rfl

@[simp] theorem faces_setEIsNew (m : Halfedge_Mesh) (i : Nat) (b : Bool) :
    (m.setEIsNew i b).faces = m.faces := rfl

@[simp] theorem keys_faces_setFHalfedge (m : Halfedge_Mesh) (i h : Nat) :
    (m.setFHalfedge i h).faces.map (fun p => p.1) = m.faces.map (fun p => p.1) := by
  unfold setFHalfedge
  dsimp only
  exact keys_updAssoc i _ m.faces

@[simp] theorem faces_allocV (m : Halfedge_Mesh) :
    m.allocV.faces = m.faces := rfl

@[simp] theorem faces_allocE (m : Halfedge_Mesh) :
    m.allocE.faces = m.faces := rfl

@[simp] theorem keys_faces_allocF (m : Halfedge_Mesh) :
    m.allocF.faces.map (fun p => p.1) = m.faces.map (fun p => p.1) ++ [m.fresh] := by
  unfold allocF
  simp

@[simp] theorem faces_allocH (m : Halfedge_Mesh) :
    m.allocH.faces = m.faces := rfl

end Halfedge_Mesh

theorem n_vertices_keys (m : Halfedge_Mesh) :
    m.n_vertices =
      (m.vertices.map (fun p => p.1)).countP (fun k => !(m.deadV.contains k)) := by
  unfold Halfedge_Mesh.n_vertices
  rw [List.countP_map]
  rfl

theorem n_edges_keys (m : Halfedge_Mesh) :
    m.n_edges =
      (m.edges.map (fun p => p.1)).countP (fun k => !(m.deadE.contains k)) := by
  unfold Halfedge_Mesh.n_edges
  rw [List.countP_map]
  rfl

theorem n_faces_keys (m : Halfedge_Mesh) :
    m.n_faces =
      (m.faces.map (fun p => p.1)).countP (fun k => !(m.deadF.contains k)) := by
  unfold Halfedge_Mesh.n_faces
  rw [List.countP_map]
  rfl

theorem split_edge_keysV (m : Halfedge_Mesh) (e : Nat) :
    (m.split_edge e).1.vertices.map (fun p => p.1) =
      m.vertices.map (fun p => p.1) ++ [m.fresh] := by
  unfold Halfedge_Mesh.split_edge
  dsimp only
  simp

theorem split_edge_keysE (m : Halfedge_Mesh) (e : Nat) :
    (m.split_edge e).1.edges.map (fun p => p.1) =
      m.edges.map (fun p => p.1) ++ [m.fresh + 1] ++ [m.fresh + 2] ++ [m.fresh + 3] := by
  unfold Halfedge_Mesh.split_edge
  dsimp only
  simp

theorem split_edge_keysF (m : Halfedge_Mesh) (e : Nat) :
    (m.split_edge e).1.faces.map (fun p => p.1) =
      m.faces.map (fun p => p.1) ++ [m.fresh + 4] ++ [m.fresh + 5] := by
  unfold Halfedge_Mesh.split_edge
  dsimp only
  simp

theorem split_edge_deadV (m : Halfedge_Mesh) (e : Nat) :
    (m.split_edge e).1.deadV = m.deadV := by
  unfold Halfedge_Mesh.split_edge
  dsimp only
  simp

theorem split_edge_deadE (m : Halfedge_Mesh) (e : Nat) :
    (m.split_edge e).1.deadE = m.deadE := by
  unfold Halfedge_Mesh.split_edge
  dsimp only
  simp

theorem split_edge_deadF (m : Halfedge_Mesh) (e : Nat) :
    (m.split_edge e).1.deadF = m.deadF := by
  unfold Halfedge_Mesh.split_edge
  dsimp only
  simp

theorem split_edge_fresh (m : Halfedge_Mesh) (e : Nat) :
    (m.split_edge e).1.fresh = m.fresh + 12 := by
  unfold Halfedge_Mesh.split_edge
  dsimp only
  simp

theorem countP_append_single (l : List Nat) (x : Nat) (dead : List Nat)
    (hx : dead.contains x = false) :
    (l ++ [x]).countP (fun k => !(dead.contains k)) =
      l.countP (fun k => !(dead.contains k)) + 1 := by
  rw [List.countP_append]
  have hx' : (x ∈ dead) = False := by
    rw [List.contains_eq_any_beq] at hx
    simp only [eq_iff_iff, iff_false]
    intro hm
    rw [List.any_eq_false] at hx
    exact absurd (Nat.beq_eq_true_eq x x |>.mpr rfl) (by simpa using hx x hm)
  simp [List.countP_cons, hx']

theorem split_edge_nv (m : Halfedge_Mesh) (e : Nat)
    (hbV : m.deadV.all (· < m.fresh) = true) :
    (m.split_edge e).1.n_vertices = m.n_vertices + 1 := by
  rw [n_vertices_keys, split_edge_deadV, split_edge_keysV,
    countP_append_single _ _ _ (not_contains_of_all_lt _ _ hbV),
    ← n_vertices_keys]

theorem split_edge_nf (m : Halfedge_Mesh) (e : Nat)
    (hbF : m.deadF.all (· < m.fresh) = true) :
    (m.split_edge e).1.n_faces = m.n_faces + 2 := by
  rw [n_faces_keys, split_edge_deadF, split_edge_keysF]
  rw [countP_append_single _ _ _
      (not_contains_of_all_lt _ _ (all_lt_mono _ _ _ hbF (by omega)))]
  rw [countP_append_single _ _ _
      (not_contains_of_all_lt _ _ (all_lt_mono _ _ _ hbF (by omega)))]
  rw [← n_faces_keys]

theorem split_edge_ne (m : Halfedge_Mesh) (e : Nat)
    (hbE : m.deadE.all (· < m.fresh) = true) :
    (m.split_edge e).1.n_edges = m.n_edges + 3 := by
  rw [n_edges_keys, split_edge_deadE, split_edge_keysE]
  rw [countP_append_single _ _ _
      (not_contains_of_all_lt _ _ (all_lt_mono _ _ _ hbE (by omega)))]
  rw [countP_append_single _ _ _
      (not_contains_of_all_lt _ _ (all_lt_mono _ _ _ hbE (by omega)))]
  rw [countP_append_single _ _ _
      (not_contains_of_all_lt _ _ (all_lt_mono _ _ _ hbE (by omega)))]
  rw [← n_edges_keys]

theorem flip_edge_nv (m : Halfedge_Mesh) (e : Nat) :
    (m.flip_edge e).1.n_vertices = m.n_vertices := by
  unfold Halfedge_Mesh.flip_edge
  dsimp only
  simp

theorem flip_edge_ne (m : Halfedge_Mesh) (e : Nat) :
    (m.flip_edge e).1.n_edges = m.n_edges := by
  unfold Halfedge_Mesh.flip_edge
  dsimp only
  simp

theorem flip_edge_nf (m : Halfedge_Mesh) (e : Nat) :
    (m.flip_edge e).1.n_faces = m.n_faces := by
  unfold Halfedge_Mesh.flip_edge
  dsimp only
  simp

theorem length_updAssoc {α : Type} (k : Nat) (f : α → α) (l : List (Nat × α)) :
    (updAssoc k f l).length = l.length := List.length_map _ _

namespace Halfedge_Mesh

@[simp] theorem elen_setEHalfedge (m : Halfedge_Mesh) (i h : Nat) :
    (m.setEHalfedge i h).edges.length = m.edges.length := by
  unfold setEHalfedge
  dsimp only
  exact length_updAssoc _ _ _

@[simp] theorem elen_setENewPos (m : Halfedge_Mesh) (i : Nat) (p : Vec3) :
    (m.setENewPos i p).edges.length = m.edges.length := by
  unfold setENewPos
  dsimp only
  exact length_updAssoc _ _ _

@[simp] theorem elen_setEIsNew (m : Halfedge_Mesh) (i : Nat) (b : Bool) :
    (m.setEIsNew i b).edges.length = m.edges.length := by
  unfold setEIsNew
  dsimp only
  exact length_updAssoc _ _ _

end Halfedge_Mesh

theorem flip_edge_deadV (m : Halfedge_Mesh) (e : Nat) :
    (m.flip_edge e).1.deadV = m.deadV := by
  unfold Halfedge_Mesh.flip_edge; dsimp only; simp

theorem flip_edge_deadE (m : Halfedge_Mesh) (e : Nat) :
    (m.flip_edge e).1.deadE = m.deadE := by
  unfold Halfedge_Mesh.flip_edge; dsimp only; simp

theorem flip_edge_deadF (m : Halfedge_Mesh) (e : Nat) :
    (m.flip_edge e).1.deadF = m.deadF := by
  unfold Halfedge_Mesh.flip_edge; dsimp only; simp

theorem flip_edge_fresh (m : Halfedge_Mesh) (e : Nat) :
    (m.flip_edge e).1.fresh = m.fresh := by
  unfold Halfedge_Mesh.flip_edge; dsimp only; simp

theorem flip_edge_elen (m : Halfedge_Mesh) (e : Nat) :
    (m.flip_edge e).1.edges.length = m.edges.length := by
  unfold Halfedge_Mesh.flip_edge; dsimp only; simp

/-- The quantities of a mesh observed by the loop-subdivision counting
argument. -/
def obsC5 (m : Halfedge_Mesh) :
    Nat × Nat × Nat × List Nat × List Nat × List Nat × Nat × Nat :=
  (m.n_vertices, m.n_edges, m.n_faces, m.deadV, m.deadE, m.deadF, m.fresh,
   m.edges.length)

theorem foldl_invar {β : Type} (g : Halfedge_Mesh → β)
    (step : Halfedge_Mesh → Nat → Halfedge_Mesh)
    (hstep : ∀ m x, g (step m x) = g m) :
    ∀ (l : List Nat) (m : Halfedge_Mesh), g (l.foldl step m) = g m := by
  intro l
  induction l with
  | nil => intro m; rfl
  | cons a t ih => intro m; rw [List.foldl_cons, ih, hstep]

theorem loopStep1_obs (m : Halfedge_Mesh) : obsC5 (loopStep1 m) = obsC5 m := by
  unfold loopStep1
  apply foldl_invar
  intro m' x
  simp [obsC5]

theorem loopStep2_obs (m : Halfedge_Mesh) : obsC5 (loopStep2 m) = obsC5 m := by
  unfold loopStep2
  apply foldl_invar
  intro m' x
  simp [obsC5]

theorem loopStep4_obs (m : Halfedge_Mesh) : obsC5 (loopStep4 m) = obsC5 m := by
  unfold loopStep4
  apply foldl_invar
  intro m' x
  split
  · dsimp only
    split
    · simp [obsC5, flip_edge_nv, flip_edge_ne, flip_edge_nf, flip_edge_deadV,
        flip_edge_deadE, flip_edge_deadF, flip_edge_fresh, flip_edge_elen]
    · rfl
  · rfl

theorem loopStep5_obs (m : Halfedge_Mesh) : obsC5 (loopStep5 m) = obsC5 m := by
  unfold loopStep5
  apply foldl_invar
  intro m' x
  simp [obsC5]

theorem loopStep3Body_obs (m : Halfedge_Mesh) (e : Nat)
    (hbV : m.deadV.all (· < m.fresh) = true)
    (hbF : m.deadF.all (· < m.fresh) = true) :
    (loopStep3Body m e).n_vertices = m.n_vertices + 1 ∧
    (loopStep3Body m e).n_faces = m.n_faces + 2 ∧
    (loopStep3Body m e).deadV = m.deadV ∧
    (loopStep3Body m e).deadE = m.deadE ∧
    (loopStep3Body m e).deadF = m.deadF ∧
    (loopStep3Body m e).fresh = m.fresh + 12 := by
  unfold loopStep3Body
  dsimp only
  split <;>
    exact ⟨by simp [split_edge_nv m e hbV],
           by simp [split_edge_nf m e hbF],
           by simp [split_edge_deadV],
           by simp [split_edge_deadE],
           by simp [split_edge_deadF],
           by simp [split_edge_fresh]⟩

theorem loopStep3_fold (l : List Nat) :
    ∀ m : Halfedge_Mesh,
    m.deadV.all (· < m.fresh) = true →
    m.deadE.all (· < m.fresh) = true →
    m.deadF.all (· < m.fresh) = true →
    (l.foldl loopStep3Body m).n_vertices = m.n_vertices + l.length ∧
    (l.foldl loopStep3Body m).n_faces = m.n_faces + 2 * l.length := by
  induction l with
  | nil => intro m _ _ _; simp
  | cons a t ih =>
    intro m hV hE hF
    rw [List.foldl_cons]
    obtain ⟨b1, b2, dV, dE, dF, fr⟩ := loopStep3Body_obs m a hV hF
    have hV' : (loopStep3Body m a).deadV.all (· < (loopStep3Body m a).fresh) = true := by
      rw [dV, fr]; exact all_lt_mono _ _ _ hV (by omega)
    have hE' : (loopStep3Body m a).deadE.all (· < (loopStep3Body m a).fresh) = true := by
      rw [dE, fr]; exact all_lt_mono _ _ _ hE (by omega)
    have hF' : (loopStep3Body m a).deadF.all (· < (loopStep3Body m a).fresh) = true := by
      rw [dF, fr]; exact all_lt_mono _ _ _ hF (by omega)
    obtain ⟨c1, c2⟩ := ih (loopStep3Body m a) hV' hE' hF'
    refine ⟨?_, ?_⟩
    · rw [c1, b1]; simp; omega
    · rw [c2, b2]; simp; omega

/-- C5: one `loop_subdivide` pass allocates exactly one vertex, three
edges and two faces per original edge and erases nothing, so a closed
manifold triangle mesh (where 2E = 3F) with V vertices, E edges and F
faces yields exactly V+E vertices and 4F faces. -/
theorem c5_loop_subdivide_counts (m : Halfedge_Mesh)
    (hb : m.freshBound = true)
    (htri : 2 * m.n_edges = 3 * m.n_faces) :
    m.loop_subdivide.n_vertices = m.n_vertices + m.n_edges ∧
    m.loop_subdivide.n_faces = 4 * m.n_faces := by
  unfold Halfedge_Mesh.freshBound at hb
  simp only [Bool.and_eq_true] at hb
  obtain ⟨⟨⟨hV, hE⟩, hF⟩, hH⟩ := hb
  unfold Halfedge_Mesh.loop_subdivide
  have h1 := loopStep1_obs m
  have h2 := loopStep2_obs (loopStep1 m)
  simp only [obsC5, Prod.mk.injEq] at h1 h2
  obtain ⟨v1, e1, f1, dv1, de1, df1, fr1, el1⟩ := h1
  obtain ⟨v2, e2, f2, dv2, de2, df2, fr2, el2⟩ := h2
  have hVb : (loopStep2 (loopStep1 m)).deadV.all
      (· < (loopStep2 (loopStep1 m)).fresh) = true := by
    rw [dv2, dv1, fr2, fr1]; exact hV
  have hEb : (loopStep2 (loopStep1 m)).deadE.all
      (· < (loopStep2 (loopStep1 m)).fresh) = true := by
    rw [de2, de1, fr2, fr1]; exact hE
  have hFb : (loopStep2 (loopStep1 m)).deadF.all
      (· < (loopStep2 (loopStep1 m)).fresh) = true := by
    rw [df2, df1, fr2, fr1]; exact hF
  have hlen : ((((loopStep2 (loopStep1 m)).edges.take
      (loopStep2 (loopStep1 m)).n_edges)).map (fun p => p.1)).length =
      m.n_edges := by
    rw [List.length_map, List.length_take, e2, e1, el2, el1]
    exact Nat.min_eq_left (List.countP_le_length _)
  unfold loopStep3
  obtain ⟨s1, s2⟩ := loopStep3_fold
    ((((loopStep2 (loopStep1 m)).edges.take
        (loopStep2 (loopStep1 m)).n_edges)).map (fun p => p.1))
    (loopStep2 (loopStep1 m)) hVb hEb hFb
  rw [hlen] at s1 s2
  have h4 := loopStep4_obs ((((loopStep2 (loopStep1 m)).edges.take
      (loopStep2 (loopStep1 m)).n_edges)).map (fun p => p.1) |>.foldl
      loopStep3Body (loopStep2 (loopStep1 m)))
  have h5 := loopStep5_obs (loopStep4 ((((loopStep2 (loopStep1 m)).edges.take
      (loopStep2 (loopStep1 m)).n_edges)).map (fun p => p.1) |>.foldl
      loopStep3Body (loopStep2 (loopStep1 m))))
  simp only [obsC5, Prod.mk.injEq] at h4 h5
  obtain ⟨v4, e4, f4, _, _, _, _, _⟩ := h4
  obtain ⟨v5, e5, f5, _, _, _, _, _⟩ := h5
  constructor
  · rw [v5, v4, s1, v2, v1]
  · rw [f5, f4, s2, f2, f1]
    omega

/-- Witness for C5: the tetrahedron (V = 4, E = 6, F = 4) subdivides to 10
vertices and 16 faces. -/
theorem c5_witness :
    tetra.loop_subdivide.n_vertices = 10 ∧ tetra.loop_subdivide.n_faces = 16 := by
  have h := c5_loop_subdivide_counts tetra (by decide) (by decide)
  rw [show tetra.n_vertices = 4 from rfl, show tetra.n_edges = 6 from rfl,
    show tetra.n_faces = 4 from rfl] at h
  exact h

/-- C6 (amended): `isotropic_remesh` returns false whenever the mesh has a
boundary face or a non-triangle face, and a successful (true) run implies
the validator and the finite-normal check passed after the split, collapse
and flip phases; no finite-normal check follows the tangential-smoothing
phase (see the counterexample). -/
theorem c6_amended_remesh_checks (elen : Halfedge_Mesh → Nat → Q)
    (vnormal : Halfedge_Mesh → Nat → Vec3)
    (nfinite : Halfedge_Mesh → Nat → Bool) (m : Halfedge_Mesh) :
    (ir_badface m = true → m.isotropic_remesh elen vnormal nfinite = (m, false)) ∧
    ((m.isotropic_remesh elen vnormal nfinite).2 = true →
      validateOk (ir_split elen (ir_meanlen elen m) m) = true ∧
      anyNonFinite nfinite
        ((ir_split elen (ir_meanlen elen m) m).compactErased) = false ∧
      anyNonFinite nfinite
        ((ir_collapse elen (ir_meanlen elen m)
            ((ir_split elen (ir_meanlen elen m) m).compactErased)).compactErased)
        = false ∧
      anyNonFinite nfinite
        ((ir_flip ((ir_collapse elen (ir_meanlen elen m)
            ((ir_split elen (ir_meanlen elen m) m).compactErased)).compactErased)).compactErased)
        = false) := by
  constructor
  · intro h
    unfold Halfedge_Mesh.isotropic_remesh
    simp [h]
  · intro ht
    unfold Halfedge_Mesh.isotropic_remesh at ht
    by_cases h0 : ir_badface m = true
    · rw [if_pos h0] at ht
      simp at ht
    · rw [if_neg h0] at ht
      dsimp only at ht
      split at ht
      next => simp at ht
      next h1 =>
        split at ht
        next => simp at ht
        next h2 =>
          split at ht
          next => simp at ht
          next h3 =>
            split at ht
            next => simp at ht
            next h4 =>
              split at ht
              next => simp at ht
              next h5 =>
                split at ht
                next => simp at ht
                next h6 =>
                  simp only [Bool.not_eq_true', Bool.not_eq_false] at h1 h2 h3 h4 h5 h6
                  exact ⟨h1, by simpa using h2, by simpa using h4, by simpa using h6⟩

set_option maxRecDepth 200000 in
/-- Counterexample for C6 as stated: with unit edge lengths (so no splits
or collapses fire) on the tetrahedron, and a finiteness oracle that turns
"non-finite" as soon as vertex 0 leaves the origin, all checks up to the
flip phase pass, the smoothing phase then moves every vertex — after which
a vertex normal is non-finite — yet `isotropic_remesh` returns success. -/
theorem c6_counterexample :
    (tetra.isotropic_remesh elen0 nrm0 fin0).2 = true ∧
    anyNonFinite fin0 (tetra.isotropic_remesh elen0 nrm0 fin0).1 = true := by
  constructor
  · decide
  · decide

/-- Witness for C6 (amended): the quad mesh contains a boundary face, so
`isotropic_remesh` rejects it outright, leaving the mesh unchanged. -/
theorem c6_witness :
    quadMesh.isotropic_remesh elen0 nrm0 fin0 = (quadMesh, false) :=
  (c6_amended_remesh_checks elen0 nrm0 fin0 quadMesh).1 (by decide)


/-! ### Reading the store through a single setter (C7 toolkit) -/

theorem lookupD_updAssoc_self {α : Type} (k : Nat) (f : α → α) (d : α)
    (l : List (Nat × α)) (hk : k ∈ l.map (fun p => p.1)) :
    lookupD (updAssoc k f l) k d = f (lookupD l k d) := by
  induction l with
  | nil => simp at hk
  | cons p t ih =>
    rw [List.map_cons, List.mem_cons] at hk
    by_cases hp : p.1 = k
    · simp [updAssoc, lookupD, hp]
    · have hmem : k ∈ t.map (fun q => q.1) := by
        rcases hk with h | h
        · exact absurd h.symm hp
        · exact h
      have ih' := ih hmem
      simp only [updAssoc] at ih' ⊢
      simp only [List.map_cons, lookupD, hp, if_false]
      simpa [hp] using ih'

theorem lookupD_updAssoc_ne {α : Type} (k j : Nat) (f : α → α) (d : α)
    (l : List (Nat × α)) (hj : j ≠ k) :
    lookupD (updAssoc k f l) j d = lookupD l j d := by
  induction l with
  | nil => rfl
  | cons p t ih =>
    by_cases hp : p.1 = k
    · have hkj : ¬ (k = j) := fun hh => hj hh.symm
      simp only [updAssoc, List.map_cons, lookupD, hp, if_true, hkj, if_false]
      simpa [updAssoc] using ih
    · by_cases hpj : p.1 = j
      · simp [updAssoc, lookupD, hp, hpj, hj]
      · simp only [updAssoc, List.map_cons, lookupD, hp, if_false, hpj]
        simpa [updAssoc] using ih

namespace Halfedge_Mesh

theorem getH_setNeighbors_self (m : Halfedge_Mesh) (i n t v e f : Nat)
    (hi : i ∈ m.halfedges.map (fun p => p.1)) :
    (m.setNeighbors i n t v e f).getH i = ⟨n, t, v, e, f⟩ := by
  unfold setNeighbors getH
  dsimp only
  rw [lookupD_updAssoc_self i _ default m.halfedges hi]

theorem getH_setNeighbors_ne (m : Halfedge_Mesh) (i n t v e f j : Nat)
    (hj : j ≠ i) :
    (m.setNeighbors i n t v e f).getH j = m.getH j := by
  unfold setNeighbors getH
  dsimp only
  rw [lookupD_updAssoc_ne i j _ default m.halfedges hj]

theorem getH_setVHalfedge (m : Halfedge_Mesh) (i h j : Nat) :
    (m.setVHalfedge i h).getH j = m.getH j := rfl

theorem getH_setFHalfedge (m : Halfedge_Mesh) (i h j : Nat) :
    (m.setFHalfedge i h).getH j = m.getH j := rfl

theorem getV_setVHalfedge_self (m : Halfedge_Mesh) (i h : Nat)
    (hi : i ∈ m.vertices.map (fun p => p.1)) :
    (m.setVHalfedge i h).getV i = { m.getV i with halfedge := h } := by
  unfold setVHalfedge getV
  dsimp only
  rw [lookupD_updAssoc_self i _ default m.vertices hi]

theorem getV_setVHalfedge_ne (m : Halfedge_Mesh) (i h j : Nat) (hj : j ≠ i) :
    (m.setVHalfedge i h).getV j = m.getV j := by
  unfold setVHalfedge getV
  dsimp only
  rw [lookupD_updAssoc_ne i j _ default m.vertices hj]

theorem getV_setNeighbors (m : Halfedge_Mesh) (i n t v e f j : Nat) :
    (m.setNeighbors i n t v e f).getV j = m.getV j := rfl

theorem getV_setFHalfedge (m : Halfedge_Mesh) (i h j : Nat) :
    (m.setFHalfedge i h).getV j = m.getV j := rfl

theorem getF_setFHalfedge_self (m : Halfedge_Mesh) (i h : Nat)
    (hi : i ∈ m.faces.map (fun p => p.1)) :
    (m.setFHalfedge i h).getF i = { m.getF i with halfedge := h } := by
  unfold setFHalfedge getF
  dsimp only
  rw [lookupD_updAssoc_self i _ default m.faces hi]

theorem getF_setFHalfedge_ne (m : Halfedge_Mesh) (i h j : Nat) (hj : j ≠ i) :
    (m.setFHalfedge i h).getF j = m.getF j := by
  unfold setFHalfedge getF
  dsimp only
  rw [lookupD_updAssoc_ne i j _ default m.faces hj]

theorem getF_setNeighbors (m : Halfedge_Mesh) (i n t v e f j : Nat) :
    (m.setNeighbors i n t v e f).getF j = m.getF j := rfl

theorem getF_setVHalfedge (m : Halfedge_Mesh) (i h j : Nat) :
    (m.setVHalfedge i h).getF j = m.getF j := rfl

theorem getV_setVHalfedge_self2 (m : Halfedge_Mesh) (i h : Nat) (r : Vertex)
    (hi : i ∈ m.vertices.map (fun p => p.1)) (hr : m.getV i = r) :
    (m.setVHalfedge i h).getV i = { r with halfedge := h } := by
  rw [getV_setVHalfedge_self m i h hi, hr]

theorem getF_setFHalfedge_self2 (m : Halfedge_Mesh) (i h : Nat) (r : Face)
    (hi : i ∈ m.faces.map (fun p => p.1)) (hr : m.getF i = r) :
    (m.setFHalfedge i h).getF i = { r with halfedge := h } := by
  rw [getF_setFHalfedge_self m i h hi, hr]

theorem next_setVHalfedge (m : Halfedge_Mesh) (i h j : Nat) :
    (m.setVHalfedge i h).next j = m.next j := rfl

theorem twin_setVHalfedge (m : Halfedge_Mesh) (i h j : Nat) :
    (m.setVHalfedge i h).twin j = m.twin j := rfl

theorem hvertex_setVHalfedge (m : Halfedge_Mesh) (i h j : Nat) :
    (m.setVHalfedge i h).hvertex j = m.hvertex j := rfl

theorem hedge_setVHalfedge (m : Halfedge_Mesh) (i h j : Nat) :
    (m.setVHalfedge i h).hedge j = m.hedge j := rfl

theorem hface_setVHalfedge (m : Halfedge_Mesh) (i h j : Nat) :
    (m.setVHalfedge i h).hface j = m.hface j := rfl

theorem next_setFHalfedge (m : Halfedge_Mesh) (i h j : Nat) :
    (m.setFHalfedge i h).next j = m.next j := rfl

theorem twin_setFHalfedge (m : Halfedge_Mesh) (i h j : Nat) :
    (m.setFHalfedge i h).twin j = m.twin j := rfl

theorem hvertex_setFHalfedge (m : Halfedge_Mesh) (i h j : Nat) :
    (m.setFHalfedge i h).hvertex j = m.hvertex j := rfl

theorem hedge_setFHalfedge (m : Halfedge_Mesh) (i h j : Nat) :
    (m.setFHalfedge i h).hedge j = m.hedge j := rfl

theorem hface_setFHalfedge (m : Halfedge_Mesh) (i h j : Nat) :
    (m.setFHalfedge i h).hface j = m.hface j := rfl

theorem next_setNeighbors_ne (m : Halfedge_Mesh) (i n t v e f j : Nat)
    (hj : j ≠ i) : (m.setNeighbors i n t v e f).next j = m.next j := by
  unfold next
  rw [getH_setNeighbors_ne m i n t v e f j hj]

theorem twin_setNeighbors_ne (m : Halfedge_Mesh) (i n t v e f j : Nat)
    (hj : j ≠ i) : (m.setNeighbors i n t v e f).twin j = m.twin j := by
  unfold twin
  rw [getH_setNeighbors_ne m i n t v e f j hj]

theorem hvertex_setNeighbors_ne (m : Halfedge_Mesh) (i n t v e f j : Nat)
    (hj : j ≠ i) : (m.setNeighbors i n t v e f).hvertex j = m.hvertex j := by
  unfold hvertex
  rw [getH_setNeighbors_ne m i n t v e f j hj]

theorem hedge_setNeighbors_ne (m : Halfedge_Mesh) (i n t v e f j : Nat)
    (hj : j ≠ i) : (m.setNeighbors i n t v e f).hedge j = m.hedge j := by
  unfold hedge
  rw [getH_setNeighbors_ne m i n t v e f j hj]

theorem hface_setNeighbors_ne (m : Halfedge_Mesh) (i n t v e f j : Nat)
    (hj : j ≠ i) : (m.setNeighbors i n t v e f).hface j = m.hface j := by
  unfold hface
  rw [getH_setNeighbors_ne m i n t v e f j hj]

theorem ehalfedge_setNeighbors (m : Halfedge_Mesh) (i n t v e f j : Nat) :
    (m.setNeighbors i n t v e f).ehalfedge j = m.ehalfedge j := rfl

theorem ehalfedge_setVHalfedge (m : Halfedge_Mesh) (i h j : Nat) :
    (m.setVHalfedge i h).ehalfedge j = m.ehalfedge j := rfl

theorem ehalfedge_setFHalfedge (m : Halfedge_Mesh) (i h j : Nat) :
    (m.setFHalfedge i h).ehalfedge j = m.ehalfedge j := rfl

theorem hkeys_setNeighbors (m : Halfedge_Mesh) (i n t v e f : Nat) :
    (m.setNeighbors i n t v e f).halfedges.map (fun p => p.1) =
      m.halfedges.map (fun p => p.1) := by
  unfold setNeighbors
  dsimp only
  exact keys_updAssoc i _ m.halfedges

theorem hkeys_setVHalfedge (m : Halfedge_Mesh) (i h : Nat) :
    (m.setVHalfedge i h).halfedges.map (fun p => p.1) =
      m.halfedges.map (fun p => p.1) := rfl

theorem hkeys_setFHalfedge (m : Halfedge_Mesh) (i h : Nat) :
    (m.setFHalfedge i h).halfedges.map (fun p => p.1) =
      m.halfedges.map (fun p => p.1) := rfl

theorem hlength_setNeighbors (m : Halfedge_Mesh) (i n t v e f : Nat) :
    (m.setNeighbors i n t v e f).halfedges.length = m.halfedges.length := by
  unfold setNeighbors
  dsimp only
  exact length_updAssoc i _ m.halfedges

theorem hlength_setVHalfedge (m : Halfedge_Mesh) (i h : Nat) :
    (m.setVHalfedge i h).halfedges.length = m.halfedges.length := rfl

theorem hlength_setFHalfedge (m : Halfedge_Mesh) (i h : Nat) :
    (m.setFHalfedge i h).halfedges.length = m.halfedges.length := rfl

theorem deadH_setNeighbors (m : Halfedge_Mesh) (i n t v e f : Nat) :
    (m.setNeighbors i n t v e f).deadH = m.deadH := rfl

theorem deadH_setVHalfedge (m : Halfedge_Mesh) (i h : Nat) :
    (m.setVHalfedge i h).deadH = m.deadH := rfl

theorem deadH_setFHalfedge (m : Halfedge_Mesh) (i h : Nat) :
    (m.setFHalfedge i h).deadH = m.deadH := rfl

end Halfedge_Mesh

/-- On a triangle `x → a → b → x` of the `next` permutation, the walk of
`get_last_halfedge` stops at `b`, the half-edge pointing back to `x`. -/
theorem get_last_halfedge_tri (m : Halfedge_Mesh) (x a b : Nat)
    (hna : m.next x = a) (hnb : m.next a = b) (hnx : m.next b = x)
    (hbx : b ≠ x) (hlen : 1 ≤ m.halfedges.length) :
    get_last_halfedge m x = b := by
  obtain ⟨k, hk⟩ : ∃ k, m.halfedges.length = k + 1 :=
    ⟨m.halfedges.length - 1, by omega⟩
  unfold get_last_halfedge Halfedge_Mesh.hfuel
  rw [hk]
  show lastAux m x (k + 1 + 1) x = b
  rw [lastAux]
  simp only [hna, hnb]
  rw [if_neg hbx]
  rw [lastAux]
  simp [hnb, hnx]


/-- One `flip_edge` on an interior edge between two triangles, fully
characterised: the statement resolves every read the source performs (the
two `next` triangles, the four corner vertices, the two faces) and gives
each store entry of the result.  Hypotheses are the id-level facts the
rewiring depends on: the two `next`-cycles, distinctness of the six
half-edges, of the four corners and of the two faces, presence of every
touched id in its arena, and that the outer twins are not among the six. -/
theorem flip_edge_spec (m : Halfedge_Mesh) (e x0 x1 x2 x3 x4 x5 w0 w1 w2 w3 g0 g1 : Nat)
    (He : m.ehalfedge e = x1)
    (Hn1 : m.next x1 = x2) (Hn2 : m.next x2 = x0) (Hn0 : m.next x0 = x1)
    (Ht1 : m.twin x1 = x3)
    (Hn3 : m.next x3 = x4) (Hn4 : m.next x4 = x5) (Hn5 : m.next x5 = x3)
    (Hw0 : m.hvertex (m.twin x2) = w0) (Hw1 : m.hvertex x1 = w1)
    (Hw2 : m.hvertex (m.twin x4) = w2) (Hw3 : m.hvertex x3 = w3)
    (Hg0 : m.hface x1 = g0) (Hg1 : m.hface x3 = g1)
    (a01 : x0 ≠ x1) (a02 : x0 ≠ x2) (a03 : x0 ≠ x3) (a04 : x0 ≠ x4) (a05 : x0 ≠ x5)
    (a12 : x1 ≠ x2) (a13 : x1 ≠ x3) (a14 : x1 ≠ x4) (a15 : x1 ≠ x5)
    (a23 : x2 ≠ x3) (a24 : x2 ≠ x4) (a25 : x2 ≠ x5)
    (a34 : x3 ≠ x4) (a35 : x3 ≠ x5) (a45 : x4 ≠ x5)
    (b01 : w0 ≠ w1) (b02 : w0 ≠ w2) (b03 : w0 ≠ w3)
    (b12 : w1 ≠ w2) (b13 : w1 ≠ w3) (b23 : w2 ≠ w3)
    (c01 : g0 ≠ g1)
    (M0 : x0 ∈ m.halfedges.map (fun p => p.1))
    (M1 : x1 ∈ m.halfedges.map (fun p => p.1))
    (M2 : x2 ∈ m.halfedges.map (fun p => p.1))
    (M3 : x3 ∈ m.halfedges.map (fun p => p.1))
    (M4 : x4 ∈ m.halfedges.map (fun p => p.1))
    (M5 : x5 ∈ m.halfedges.map (fun p => p.1))
    (W0 : w0 ∈ m.vertices.map (fun p => p.1))
    (W1 : w1 ∈ m.vertices.map (fun p => p.1))
    (W2 : w2 ∈ m.vertices.map (fun p => p.1))
    (W3 : w3 ∈ m.vertices.map (fun p => p.1))
    (G0 : g0 ∈ m.faces.map (fun p => p.1))
    (G1 : g1 ∈ m.faces.map (fun p => p.1))
    (Hlen : 1 ≤ m.halfedges.length) :
    (m.flip_edge e).1.getH x0 = ⟨x4, m.twin x0, m.hvertex x0, m.hedge x0, g0⟩ ∧
    (m.flip_edge e).1.getH x1 = ⟨x0, x3, w2, m.hedge x1, g0⟩ ∧
    (m.flip_edge e).1.getH x2 = ⟨x3, m.twin x2, m.hvertex x2, m.hedge x2, g1⟩ ∧
    (m.flip_edge e).1.getH x3 = ⟨x5, x1, w0, m.hedge x3, g1⟩ ∧
    (m.flip_edge e).1.getH x4 = ⟨x1, m.twin x4, m.hvertex x4, m.hedge x4, g0⟩ ∧
    (m.flip_edge e).1.getH x5 = ⟨x2, m.twin x5, m.hvertex x5, m.hedge x5, g1⟩ ∧
    (∀ k, k ∉ [x0, x1, x2, x3, x4, x5] → (m.flip_edge e).1.getH k = m.getH k) ∧
    (m.flip_edge e).1.getV w0 = { m.getV w0 with halfedge := x3 } ∧
    (m.flip_edge e).1.getV w1 = { m.getV w1 with halfedge := x4 } ∧
    (m.flip_edge e).1.getV w2 = { m.getV w2 with halfedge := x1 } ∧
    (m.flip_edge e).1.getV w3 = { m.getV w3 with halfedge := x2 } ∧
    (∀ u, u ∉ [w0, w1, w2, w3] → (m.flip_edge e).1.getV u = m.getV u) ∧
    (m.flip_edge e).1.getF g0 = { m.getF g0 with halfedge := x1 } ∧
    (m.flip_edge e).1.getF g1 = { m.getF g1 with halfedge := x3 } ∧
    (∀ g, g ∉ [g0, g1] → (m.flip_edge e).1.getF g = m.getF g) ∧
    (m.flip_edge e).1.edges = m.edges ∧
    (m.flip_edge e).1.halfedges.map (fun p => p.1) = m.halfedges.map (fun p => p.1) ∧
    (m.flip_edge e).1.vertices.map (fun p => p.1) = m.vertices.map (fun p => p.1) ∧
    (m.flip_edge e).1.faces.map (fun p => p.1) = m.faces.map (fun p => p.1) ∧
    (m.flip_edge e).1.halfedges.length = m.halfedges.length ∧
    (m.flip_edge e).1.deadH = m.deadH ∧
    (m.flip_edge e).1.deadV = m.deadV ∧
    (m.flip_edge e).1.deadE = m.deadE ∧
    (m.flip_edge e).1.deadF = m.deadF ∧
    (m.flip_edge e).1.fresh = m.fresh := by
  have a10 := a01.symm
  have a20 := a02.symm
  have a30 := a03.symm
  have a40 := a04.symm
  have a50 := a05.symm
  have a21 := a12.symm
  have a31 := a13.symm
  have a41 := a14.symm
  have a51 := a15.symm
  have a32 := a23.symm
  have a42 := a24.symm
  have a52 := a25.symm
  have a43 := a34.symm
  have a53 := a35.symm
  have a54 := a45.symm
  have L1 : get_last_halfedge m x1 = x0 :=
    get_last_halfedge_tri m x1 x2 x0 Hn1 Hn2 Hn0 a01 Hlen
  have L2 : get_last_halfedge m x3 = x5 :=
    get_last_halfedge_tri m x3 x4 x5 Hn3 Hn4 Hn5 a53 Hlen
  have hE : (m.flip_edge e).1 =
      ((((((((((((m.setVHalfedge w0 x3).setVHalfedge w1 x4).setVHalfedge w2
        x1).setVHalfedge w3 x2).setFHalfedge g0 x1).setFHalfedge g1
        x3).setNeighbors x0 x4 (m.twin x0) (m.hvertex x0) (m.hedge x0)
        g0).setNeighbors x1 x0 x3 w2 (m.hedge x1) g0).setNeighbors x2 x3
        (m.twin x2) (m.hvertex x2) (m.hedge x2) g1).setNeighbors x3 x5 x1 w0
        (m.hedge x3) g1).setNeighbors x4 x1 (m.twin x4) (m.hvertex x4)
        (m.hedge x4) g0).setNeighbors x5 x2 (m.twin x5) (m.hvertex x5)
        (m.hedge x5) g1) := by
    unfold Halfedge_Mesh.flip_edge
    dsimp only
    simp only [He, Hn1, Ht1, Hn3, L1, L2,
      Halfedge_Mesh.next_setVHalfedge, Halfedge_Mesh.twin_setVHalfedge,
      Halfedge_Mesh.hvertex_setVHalfedge, Halfedge_Mesh.hedge_setVHalfedge,
      Halfedge_Mesh.next_setFHalfedge, Halfedge_Mesh.twin_setFHalfedge,
      Halfedge_Mesh.hvertex_setFHalfedge, Halfedge_Mesh.hedge_setFHalfedge,
      Halfedge_Mesh.next_setNeighbors_ne _ _ _ _ _ _ _ _ a20,
      Halfedge_Mesh.next_setNeighbors_ne _ _ _ _ _ _ _ _ a40,
      Halfedge_Mesh.next_setNeighbors_ne _ _ _ _ _ _ _ _ a41,
      Halfedge_Mesh.next_setNeighbors_ne _ _ _ _ _ _ _ _ a42,
      Halfedge_Mesh.twin_setNeighbors_ne _ _ _ _ _ _ _ _ a20,
      Halfedge_Mesh.twin_setNeighbors_ne _ _ _ _ _ _ _ _ a21,
      Halfedge_Mesh.twin_setNeighbors_ne _ _ _ _ _ _ _ _ a40,
      Halfedge_Mesh.twin_setNeighbors_ne _ _ _ _ _ _ _ _ a41,
      Halfedge_Mesh.twin_setNeighbors_ne _ _ _ _ _ _ _ _ a42,
      Halfedge_Mesh.twin_setNeighbors_ne _ _ _ _ _ _ _ _ a43,
      Halfedge_Mesh.twin_setNeighbors_ne _ _ _ _ _ _ _ _ a50,
      Halfedge_Mesh.twin_setNeighbors_ne _ _ _ _ _ _ _ _ a51,
      Halfedge_Mesh.twin_setNeighbors_ne _ _ _ _ _ _ _ _ a52,
      Halfedge_Mesh.twin_setNeighbors_ne _ _ _ _ _ _ _ _ a53,
      Halfedge_Mesh.twin_setNeighbors_ne _ _ _ _ _ _ _ _ a54,
      Halfedge_Mesh.hvertex_setNeighbors_ne _ _ _ _ _ _ _ _ a20,
      Halfedge_Mesh.hvertex_setNeighbors_ne _ _ _ _ _ _ _ _ a21,
      Halfedge_Mesh.hvertex_setNeighbors_ne _ _ _ _ _ _ _ _ a40,
      Halfedge_Mesh.hvertex_setNeighbors_ne _ _ _ _ _ _ _ _ a41,
      Halfedge_Mesh.hvertex_setNeighbors_ne _ _ _ _ _ _ _ _ a42,
      Halfedge_Mesh.hvertex_setNeighbors_ne _ _ _ _ _ _ _ _ a43,
      Halfedge_Mesh.hvertex_setNeighbors_ne _ _ _ _ _ _ _ _ a50,
      Halfedge_Mesh.hvertex_setNeighbors_ne _ _ _ _ _ _ _ _ a51,
      Halfedge_Mesh.hvertex_setNeighbors_ne _ _ _ _ _ _ _ _ a52,
      Halfedge_Mesh.hvertex_setNeighbors_ne _ _ _ _ _ _ _ _ a53,
      Halfedge_Mesh.hvertex_setNeighbors_ne _ _ _ _ _ _ _ _ a54,
      Halfedge_Mesh.hedge_setNeighbors_ne _ _ _ _ _ _ _ _ a10,
      Halfedge_Mesh.hedge_setNeighbors_ne _ _ _ _ _ _ _ _ a20,
      Halfedge_Mesh.hedge_setNeighbors_ne _ _ _ _ _ _ _ _ a21,
      Halfedge_Mesh.hedge_setNeighbors_ne _ _ _ _ _ _ _ _ a30,
      Halfedge_Mesh.hedge_setNeighbors_ne _ _ _ _ _ _ _ _ a31,
      Halfedge_Mesh.hedge_setNeighbors_ne _ _ _ _ _ _ _ _ a32,
      Halfedge_Mesh.hedge_setNeighbors_ne _ _ _ _ _ _ _ _ a40,
      Halfedge_Mesh.hedge_setNeighbors_ne _ _ _ _ _ _ _ _ a41,
      Halfedge_Mesh.hedge_setNeighbors_ne _ _ _ _ _ _ _ _ a42,
      Halfedge_Mesh.hedge_setNeighbors_ne _ _ _ _ _ _ _ _ a43,
      Halfedge_Mesh.hedge_setNeighbors_ne _ _ _ _ _ _ _ _ a50,
      Halfedge_Mesh.hedge_setNeighbors_ne _ _ _ _ _ _ _ _ a51,
      Halfedge_Mesh.hedge_setNeighbors_ne _ _ _ _ _ _ _ _ a52,
      Halfedge_Mesh.hedge_setNeighbors_ne _ _ _ _ _ _ _ _ a53,
      Halfedge_Mesh.hedge_setNeighbors_ne _ _ _ _ _ _ _ _ a54,
      Hn2, Hn4, Hw0, Hw1, Hw2, Hw3, Hg0, Hg1]
  refine ⟨?_, ?_, ?_, ?_, ?_, ?_, ?_, ?_, ?_, ?_, ?_, ?_, ?_, ?_, ?_, ?_,
    ?_, ?_, ?_, ?_, ?_, ?_, ?_, ?_, ?_⟩
  · rw [hE,
      Halfedge_Mesh.getH_setNeighbors_ne _ _ _ _ _ _ _ _ a05,
      Halfedge_Mesh.getH_setNeighbors_ne _ _ _ _ _ _ _ _ a04,
      Halfedge_Mesh.getH_setNeighbors_ne _ _ _ _ _ _ _ _ a03,
      Halfedge_Mesh.getH_setNeighbors_ne _ _ _ _ _ _ _ _ a02,
      Halfedge_Mesh.getH_setNeighbors_ne _ _ _ _ _ _ _ _ a01]
    exact Halfedge_Mesh.getH_setNeighbors_self _ _ _ _ _ _ _ (by exact M0)
  · rw [hE,
      Halfedge_Mesh.getH_setNeighbors_ne _ _ _ _ _ _ _ _ a15,
      Halfedge_Mesh.getH_setNeighbors_ne _ _ _ _ _ _ _ _ a14,
      Halfedge_Mesh.getH_setNeighbors_ne _ _ _ _ _ _ _ _ a13,
      Halfedge_Mesh.getH_setNeighbors_ne _ _ _ _ _ _ _ _ a12]
    exact Halfedge_Mesh.getH_setNeighbors_self _ _ _ _ _ _ _
      (by rw [Halfedge_Mesh.hkeys_setNeighbors]; exact M1)
  · rw [hE,
      Halfedge_Mesh.getH_setNeighbors_ne _ _ _ _ _ _ _ _ a25,
      Halfedge_Mesh.getH_setNeighbors_ne _ _ _ _ _ _ _ _ a24,
      Halfedge_Mesh.getH_setNeighbors_ne _ _ _ _ _ _ _ _ a23]
    exact Halfedge_Mesh.getH_setNeighbors_self _ _ _ _ _ _ _
      (by rw [Halfedge_Mesh.hkeys_setNeighbors, Halfedge_Mesh.hkeys_setNeighbors];
          exact M2)
  · rw [hE,
      Halfedge_Mesh.getH_setNeighbors_ne _ _ _ _ _ _ _ _ a35,
      Halfedge_Mesh.getH_setNeighbors_ne _ _ _ _ _ _ _ _ a34]
    exact Halfedge_Mesh.getH_setNeighbors_self _ _ _ _ _ _ _
      (by rw [Halfedge_Mesh.hkeys_setNeighbors, Halfedge_Mesh.hkeys_setNeighbors,
            Halfedge_Mesh.hkeys_setNeighbors];
          exact M3)
  · rw [hE,
      Halfedge_Mesh.getH_setNeighbors_ne _ _ _ _ _ _ _ _ a45]
    exact Halfedge_Mesh.getH_setNeighbors_self _ _ _ _ _ _ _
      (by rw [Halfedge_Mesh.hkeys_setNeighbors, Halfedge_Mesh.hkeys_setNeighbors,
            Halfedge_Mesh.hkeys_setNeighbors, Halfedge_Mesh.hkeys_setNeighbors];
          exact M4)
  · rw [hE]
    exact Halfedge_Mesh.getH_setNeighbors_self _ _ _ _ _ _ _
      (by rw [Halfedge_Mesh.hkeys_setNeighbors, Halfedge_Mesh.hkeys_setNeighbors,
            Halfedge_Mesh.hkeys_setNeighbors, Halfedge_Mesh.hkeys_setNeighbors,
            Halfedge_Mesh.hkeys_setNeighbors];
          exact M5)
  · intro k hk
    simp only [List.mem_cons, List.not_mem_nil, or_false, not_or] at hk
    obtain ⟨k0, k1, k2, k3, k4, k5⟩ := hk
    rw [hE,
      Halfedge_Mesh.getH_setNeighbors_ne _ _ _ _ _ _ _ _ k5,
      Halfedge_Mesh.getH_setNeighbors_ne _ _ _ _ _ _ _ _ k4,
      Halfedge_Mesh.getH_setNeighbors_ne _ _ _ _ _ _ _ _ k3,
      Halfedge_Mesh.getH_setNeighbors_ne _ _ _ _ _ _ _ _ k2,
      Halfedge_Mesh.getH_setNeighbors_ne _ _ _ _ _ _ _ _ k1,
      Halfedge_Mesh.getH_setNeighbors_ne _ _ _ _ _ _ _ _ k0]
    rfl
  · rw [hE]
    simp only [Halfedge_Mesh.getV_setNeighbors, Halfedge_Mesh.getV_setFHalfedge]
    rw [Halfedge_Mesh.getV_setVHalfedge_ne _ _ _ _ b03,
      Halfedge_Mesh.getV_setVHalfedge_ne _ _ _ _ b02,
      Halfedge_Mesh.getV_setVHalfedge_ne _ _ _ _ b01]
    exact Halfedge_Mesh.getV_setVHalfedge_self _ _ _ W0
  · rw [hE]
    simp only [Halfedge_Mesh.getV_setNeighbors, Halfedge_Mesh.getV_setFHalfedge]
    rw [Halfedge_Mesh.getV_setVHalfedge_ne _ _ _ _ b13,
      Halfedge_Mesh.getV_setVHalfedge_ne _ _ _ _ b12]
    exact Halfedge_Mesh.getV_setVHalfedge_self2 _ _ _ _
      (by rw [Halfedge_Mesh.keys_vertices_setVHalfedge]; exact W1)
      (Halfedge_Mesh.getV_setVHalfedge_ne _ _ _ _ b01.symm)
  · rw [hE]
    simp only [Halfedge_Mesh.getV_setNeighbors, Halfedge_Mesh.getV_setFHalfedge]
    rw [Halfedge_Mesh.getV_setVHalfedge_ne _ _ _ _ b23]
    exact Halfedge_Mesh.getV_setVHalfedge_self2 _ _ _ _
      (by rw [Halfedge_Mesh.keys_vertices_setVHalfedge,
            Halfedge_Mesh.keys_vertices_setVHalfedge];
          exact W2)
      (by rw [Halfedge_Mesh.getV_setVHalfedge_ne _ _ _ _ b12.symm,
            Halfedge_Mesh.getV_setVHalfedge_ne _ _ _ _ b02.symm])
  · rw [hE]
    simp only [Halfedge_Mesh.getV_setNeighbors, Halfedge_Mesh.getV_setFHalfedge]
    exact Halfedge_Mesh.getV_setVHalfedge_self2 _ _ _ _
      (by rw [Halfedge_Mesh.keys_vertices_setVHalfedge,
            Halfedge_Mesh.keys_vertices_setVHalfedge,
            Halfedge_Mesh.keys_vertices_setVHalfedge];
          exact W3)
      (by rw [Halfedge_Mesh.getV_setVHalfedge_ne _ _ _ _ b23.symm,
            Halfedge_Mesh.getV_setVHalfedge_ne _ _ _ _ b13.symm,
            Halfedge_Mesh.getV_setVHalfedge_ne _ _ _ _ b03.symm])
  · intro u hu
    simp only [List.mem_cons, List.not_mem_nil, or_false, not_or] at hu
    obtain ⟨u0, u1, u2, u3⟩ := hu
    rw [hE]
    simp only [Halfedge_Mesh.getV_setNeighbors, Halfedge_Mesh.getV_setFHalfedge]
    rw [Halfedge_Mesh.getV_setVHalfedge_ne _ _ _ _ u3,
      Halfedge_Mesh.getV_setVHalfedge_ne _ _ _ _ u2,
      Halfedge_Mesh.getV_setVHalfedge_ne _ _ _ _ u1,
      Halfedge_Mesh.getV_setVHalfedge_ne _ _ _ _ u0]
  · rw [hE]
    simp only [Halfedge_Mesh.getF_setNeighbors]
    rw [Halfedge_Mesh.getF_setFHalfedge_ne _ _ _ _ c01]
    exact Halfedge_Mesh.getF_setFHalfedge_self _ _ _ (by exact G0)
  · rw [hE]
    simp only [Halfedge_Mesh.getF_setNeighbors]
    exact Halfedge_Mesh.getF_setFHalfedge_self2 _ _ _ _
      (by rw [Halfedge_Mesh.keys_faces_setFHalfedge]; exact G1)
      (by rw [Halfedge_Mesh.getF_setFHalfedge_ne _ _ _ _ c01.symm]; rfl)
  · intro g hg
    simp only [List.mem_cons, List.not_mem_nil, or_false, not_or] at hg
    obtain ⟨g0', g1'⟩ := hg
    rw [hE]
    simp only [Halfedge_Mesh.getF_setNeighbors]
    rw [Halfedge_Mesh.getF_setFHalfedge_ne _ _ _ _ g1',
      Halfedge_Mesh.getF_setFHalfedge_ne _ _ _ _ g0']
    rfl
  · rw [hE]
    rfl
  · rw [hE]
    simp only [Halfedge_Mesh.hkeys_setNeighbors, Halfedge_Mesh.hkeys_setVHalfedge,
      Halfedge_Mesh.hkeys_setFHalfedge]
  · rw [hE]
    simp only [Halfedge_Mesh.vertices_setNeighbors, Halfedge_Mesh.vertices_setFHalfedge,
      Halfedge_Mesh.keys_vertices_setVHalfedge]
  · rw [hE]
    simp only [Halfedge_Mesh.faces_setNeighbors, Halfedge_Mesh.faces_setVHalfedge,
      Halfedge_Mesh.keys_faces_setFHalfedge]
  · rw [hE]
    simp only [Halfedge_Mesh.hlength_setNeighbors, Halfedge_Mesh.hlength_setVHalfedge,
      Halfedge_Mesh.hlength_setFHalfedge]
  · rw [hE]
    rfl
  · rw [hE]
    rfl
  · rw [hE]
    rfl
  · rw [hE]
    rfl
  · rw [hE]
    rfl

/-- A nodup-keyed association list is recovered from its key list and its
lookup function. -/
theorem assoc_eq_keys_map {α : Type} (d : α) (L : List (Nat × α))
    (hnd : (L.map (fun p => p.1)).Nodup) :
    L = (L.map (fun p => p.1)).map (fun k => (k, lookupD L k d)) := by
  induction L with
  | nil => rfl
  | cons p t ih =>
    rw [List.map_cons, List.nodup_cons] at hnd
    obtain ⟨hp, ht⟩ := hnd
    rw [List.map_cons, List.map_cons]
    congr 1
    · show p = (p.1, lookupD (p :: t) p.1 d)
      rw [lookupD, if_pos rfl]
    · have hlk : ∀ k ∈ t.map (fun p => p.1), lookupD (p :: t) k d = lookupD t k d := by
        intro k hk
        have hne : ¬ (p.1 = k) := fun hh => hp (hh ▸ hk)
        rw [lookupD, if_neg hne]
      calc t = (t.map (fun p => p.1)).map (fun k => (k, lookupD t k d)) := ih ht
        _ = (t.map (fun p => p.1)).map (fun k => (k, lookupD (p :: t) k d)) := by
            apply List.map_congr_left
            intro k hk
            rw [hlk k hk]

/-- Counting with a predicate that swaps its values on two distinct listed
keys and agrees elsewhere gives the same count. -/
theorem countP_keys_swap (K : List Nat) (k1 k3 : Nat) (p q : Nat → Bool)
    (hnd : K.Nodup) (hk1 : k1 ∈ K) (hk3 : k3 ∈ K) (hne : k1 ≠ k3)
    (hpt : ∀ k ∈ K, k ≠ k1 → k ≠ k3 → q k = p k)
    (h13 : q k1 = p k3) (h31 : q k3 = p k1) :
    K.countP q = K.countP p := by
  obtain ⟨T, hT⟩ : ∃ T, K.Perm (k1 :: k3 :: T) := by
    have h1 : K.Perm (k1 :: K.erase k1) := List.perm_cons_erase hk1
    have hk3' : k3 ∈ K.erase k1 := (List.mem_erase_of_ne (Ne.symm hne)).mpr hk3
    have h2 : (K.erase k1).Perm (k3 :: (K.erase k1).erase k3) :=
      List.perm_cons_erase hk3'
    exact ⟨(K.erase k1).erase k3, h1.trans (h2.cons k1)⟩
  have hndT : (k1 :: k3 :: T).Nodup := hT.nodup_iff.mp hnd
  have hmemT : ∀ k ∈ T, k ≠ k1 ∧ k ≠ k3 ∧ k ∈ K := by
    intro k hk
    simp only [List.nodup_cons, List.mem_cons] at hndT
    refine ⟨fun hh => hndT.1 (Or.inr (hh ▸ hk)), fun hh => hndT.2.1 (hh ▸ hk), ?_⟩
    exact hT.mem_iff.mpr (by simp [hk])
  rw [hT.countP_eq q, hT.countP_eq p]
  simp only [List.countP_cons]
  have hTeq : T.countP q = T.countP p := by
    apply List.countP_congr
    intro k hk
    obtain ⟨e1, e2, e3⟩ := hmemT k hk
    rw [hpt k e3 e1 e2]
  rw [hTeq, h13, h31]
  omega

/-- The store-level vertex degree, re-expressed as a count over the key
list (valid when the keys are nodup). -/
theorem out_degree_eq_keys (m : Halfedge_Mesh) (w : Nat)
    (hnd : (m.halfedges.map (fun p => p.1)).Nodup) :
    out_degree m w = (m.halfedges.map (fun p => p.1)).countP
      (fun k => !(m.deadH.contains k) && ((m.getH k).vertex == w)) := by
  unfold out_degree
  conv_lhs => rw [assoc_eq_keys_map default m.halfedges hnd]
  rw [List.countP_map]
  rfl

set_option maxHeartbeats 1000000 in
/-- C7 (amended): applying `flip_edge` twice to an interior edge `e` between
two triangles does not restore the links themselves; it returns the mesh
obtained from the original by exchanging the roles of the two half-edges of
`e` (`h1` and `h3`) together with the two adjacent faces (`f0` and `f1`),
reassigning representatives, and leaving every other store entry, the edge
arena, the erasure marks and the id counter unchanged; in particular every
vertex keeps its original store-level degree. -/
theorem c7_amended_double_flip (m : Halfedge_Mesh)
    (e h0 h1 h2 h3 h4 h5 v0 v1 v2 v3 f0 f1 : Nat)
    (He : m.ehalfedge e = h1)
    (Hn1 : m.next h1 = h2) (Hn2 : m.next h2 = h0) (Hn0 : m.next h0 = h1)
    (Ht1 : m.twin h1 = h3)
    (Hn3 : m.next h3 = h4) (Hn4 : m.next h4 = h5) (Hn5 : m.next h5 = h3)
    (Hv0 : m.hvertex (m.twin h2) = v0) (Hv1 : m.hvertex h1 = v1)
    (Hv2 : m.hvertex (m.twin h4) = v2) (Hv3 : m.hvertex h3 = v3)
    (Hf0 : m.hface h1 = f0) (Hf1 : m.hface h3 = f1)
    (Hvt0 : m.hvertex (m.twin h0) = v1) (Hvt5 : m.hvertex (m.twin h5) = v3)
    (Htw0 : m.twin h0 ∉ [h0, h1, h2, h3, h4, h5])
    (Htw5 : m.twin h5 ∉ [h0, h1, h2, h3, h4, h5])
    (a01 : h0 ≠ h1) (a02 : h0 ≠ h2) (a03 : h0 ≠ h3) (a04 : h0 ≠ h4) (a05 : h0 ≠ h5)
    (a12 : h1 ≠ h2) (a13 : h1 ≠ h3) (a14 : h1 ≠ h4) (a15 : h1 ≠ h5)
    (a23 : h2 ≠ h3) (a24 : h2 ≠ h4) (a25 : h2 ≠ h5)
    (a34 : h3 ≠ h4) (a35 : h3 ≠ h5) (a45 : h4 ≠ h5)
    (b01 : v0 ≠ v1) (b02 : v0 ≠ v2) (b03 : v0 ≠ v3)
    (b12 : v1 ≠ v2) (b13 : v1 ≠ v3) (b23 : v2 ≠ v3)
    (c01 : f0 ≠ f1)
    (M0 : h0 ∈ m.halfedges.map (fun p => p.1))
    (M1 : h1 ∈ m.halfedges.map (fun p => p.1))
    (M2 : h2 ∈ m.halfedges.map (fun p => p.1))
    (M3 : h3 ∈ m.halfedges.map (fun p => p.1))
    (M4 : h4 ∈ m.halfedges.map (fun p => p.1))
    (M5 : h5 ∈ m.halfedges.map (fun p => p.1))
    (W0 : v0 ∈ m.vertices.map (fun p => p.1))
    (W1 : v1 ∈ m.vertices.map (fun p => p.1))
    (W2 : v2 ∈ m.vertices.map (fun p => p.1))
    (W3 : v3 ∈ m.vertices.map (fun p => p.1))
    (G0 : f0 ∈ m.faces.map (fun p => p.1))
    (G1 : f1 ∈ m.faces.map (fun p => p.1))
    (Hlen : 1 ≤ m.halfedges.length)
    (Hnd : (m.halfedges.map (fun p => p.1)).Nodup)
    (Hd1 : m.deadH.contains h1 = false)
    (Hd3 : m.deadH.contains h3 = false) :
    ((m.flip_edge e).1.flip_edge e).1.getH h0
        = ⟨h3, m.twin h0, m.hvertex h0, m.hedge h0, f1⟩ ∧
    ((m.flip_edge e).1.flip_edge e).1.getH h1 = ⟨h4, h3, v3, m.hedge h1, f0⟩ ∧
    ((m.flip_edge e).1.flip_edge e).1.getH h2
        = ⟨h0, m.twin h2, m.hvertex h2, m.hedge h2, f1⟩ ∧
    ((m.flip_edge e).1.flip_edge e).1.getH h3 = ⟨h2, h1, v1, m.hedge h3, f1⟩ ∧
    ((m.flip_edge e).1.flip_edge e).1.getH h4
        = ⟨h5, m.twin h4, m.hvertex h4, m.hedge h4, f0⟩ ∧
    ((m.flip_edge e).1.flip_edge e).1.getH h5
        = ⟨h1, m.twin h5, m.hvertex h5, m.hedge h5, f0⟩ ∧
    (∀ k, k ∉ [h0, h1, h2, h3, h4, h5] →
      ((m.flip_edge e).1.flip_edge e).1.getH k = m.getH k) ∧
    ((m.flip_edge e).1.flip_edge e).1.getV v0 = { m.getV v0 with halfedge := h0 } ∧
    ((m.flip_edge e).1.flip_edge e).1.getV v1 = { m.getV v1 with halfedge := h3 } ∧
    ((m.flip_edge e).1.flip_edge e).1.getV v2 = { m.getV v2 with halfedge := h5 } ∧
    ((m.flip_edge e).1.flip_edge e).1.getV v3 = { m.getV v3 with halfedge := h1 } ∧
    (∀ u, u ∉ [v0, v1, v2, v3] →
      ((m.flip_edge e).1.flip_edge e).1.getV u = m.getV u) ∧
    ((m.flip_edge e).1.flip_edge e).1.getF f0 = { m.getF f0 with halfedge := h1 } ∧
    ((m.flip_edge e).1.flip_edge e).1.getF f1 = { m.getF f1 with halfedge := h3 } ∧
    (∀ g, g ∉ [f0, f1] → ((m.flip_edge e).1.flip_edge e).1.getF g = m.getF g) ∧
    ((m.flip_edge e).1.flip_edge e).1.edges = m.edges ∧
    ((m.flip_edge e).1.flip_edge e).1.deadH = m.deadH ∧
    ((m.flip_edge e).1.flip_edge e).1.deadV = m.deadV ∧
    ((m.flip_edge e).1.flip_edge e).1.deadE = m.deadE ∧
    ((m.flip_edge e).1.flip_edge e).1.deadF = m.deadF ∧
    ((m.flip_edge e).1.flip_edge e).1.fresh = m.fresh ∧
    (∀ w, out_degree ((m.flip_edge e).1.flip_edge e).1 w = out_degree m w) := by
  obtain ⟨S0, S1, S2, S3, S4, S5, SF, V0', V1', V2', V3', VF, F0', F1', FF,
      Ed, Kh, Kv, Kf, Ln, D1, D2, D3, D4, D5⟩ :=
    flip_edge_spec m e h0 h1 h2 h3 h4 h5 v0 v1 v2 v3 f0 f1
      He Hn1 Hn2 Hn0 Ht1 Hn3 Hn4 Hn5 Hv0 Hv1 Hv2 Hv3 Hf0 Hf1
      a01 a02 a03 a04 a05 a12 a13 a14 a15 a23 a24 a25 a34 a35 a45
      b01 b02 b03 b12 b13 b23 c01 M0 M1 M2 M3 M4 M5 W0 W1 W2 W3 G0 G1 Hlen
  have He2 : (m.flip_edge e).1.ehalfedge e = h1 := by
    unfold Halfedge_Mesh.ehalfedge Halfedge_Mesh.getE
    rw [Ed]
    exact He
  have N1 : (m.flip_edge e).1.next h1 = h0 := by
    show ((m.flip_edge e).1.getH h1).next = h0
    rw [S1]
  have N0 : (m.flip_edge e).1.next h0 = h4 := by
    show ((m.flip_edge e).1.getH h0).next = h4
    rw [S0]
  have N4 : (m.flip_edge e).1.next h4 = h1 := by
    show ((m.flip_edge e).1.getH h4).next = h1
    rw [S4]
  have N3 : (m.flip_edge e).1.next h3 = h5 := by
    show ((m.flip_edge e).1.getH h3).next = h5
    rw [S3]
  have N5 : (m.flip_edge e).1.next h5 = h2 := by
    show ((m.flip_edge e).1.getH h5).next = h2
    rw [S5]
  have N2 : (m.flip_edge e).1.next h2 = h3 := by
    show ((m.flip_edge e).1.getH h2).next = h3
    rw [S2]
  have T1 : (m.flip_edge e).1.twin h1 = h3 := by
    show ((m.flip_edge e).1.getH h1).twin = h3
    rw [S1]
  have TW0 : (m.flip_edge e).1.twin h0 = m.twin h0 := by
    show ((m.flip_edge e).1.getH h0).twin = m.twin h0
    rw [S0]
  have TW2 : (m.flip_edge e).1.twin h2 = m.twin h2 := by
    show ((m.flip_edge e).1.getH h2).twin = m.twin h2
    rw [S2]
  have TW4 : (m.flip_edge e).1.twin h4 = m.twin h4 := by
    show ((m.flip_edge e).1.getH h4).twin = m.twin h4
    rw [S4]
  have TW5 : (m.flip_edge e).1.twin h5 = m.twin h5 := by
    show ((m.flip_edge e).1.getH h5).twin = m.twin h5
    rw [S5]
  have Vx1 : (m.flip_edge e).1.hvertex h1 = v2 := by
    show ((m.flip_edge e).1.getH h1).vertex = v2
    rw [S1]
  have Vx3 : (m.flip_edge e).1.hvertex h3 = v0 := by
    show ((m.flip_edge e).1.getH h3).vertex = v0
    rw [S3]
  have HV0 : (m.flip_edge e).1.hvertex h0 = m.hvertex h0 := by
    show ((m.flip_edge e).1.getH h0).vertex = m.hvertex h0
    rw [S0]
  have HV2 : (m.flip_edge e).1.hvertex h2 = m.hvertex h2 := by
    show ((m.flip_edge e).1.getH h2).vertex = m.hvertex h2
    rw [S2]
  have HV4 : (m.flip_edge e).1.hvertex h4 = m.hvertex h4 := by
    show ((m.flip_edge e).1.getH h4).vertex = m.hvertex h4
    rw [S4]
  have HV5 : (m.flip_edge e).1.hvertex h5 = m.hvertex h5 := by
    show ((m.flip_edge e).1.getH h5).vertex = m.hvertex h5
    rw [S5]
  have HE0 : (m.flip_edge e).1.hedge h0 = m.hedge h0 := by
    show ((m.flip_edge e).1.getH h0).edge = m.hedge h0
    rw [S0]
  have HE1 : (m.flip_edge e).1.hedge h1 = m.hedge h1 := by
    show ((m.flip_edge e).1.getH h1).edge = m.hedge h1
    rw [S1]
  have HE2 : (m.flip_edge e).1.hedge h2 = m.hedge h2 := by
    show ((m.flip_edge e).1.getH h2).edge = m.hedge h2
    rw [S2]
  have HE3 : (m.flip_edge e).1.hedge h3 = m.hedge h3 := by
    show ((m.flip_edge e).1.getH h3).edge = m.hedge h3
    rw [S3]
  have HE4 : (m.flip_edge e).1.hedge h4 = m.hedge h4 := by
    show ((m.flip_edge e).1.getH h4).edge = m.hedge h4
    rw [S4]
  have HE5 : (m.flip_edge e).1.hedge h5 = m.hedge h5 := by
    show ((m.flip_edge e).1.getH h5).edge = m.hedge h5
    rw [S5]
  have Fx0 : (m.flip_edge e).1.hface h1 = f0 := by
    show ((m.flip_edge e).1.getH h1).face = f0
    rw [S1]
  have Fx1 : (m.flip_edge e).1.hface h3 = f1 := by
    show ((m.flip_edge e).1.getH h3).face = f1
    rw [S3]
  have VT0 : (m.flip_edge e).1.hvertex ((m.flip_edge e).1.twin h0) = v1 := by
    rw [TW0]
    show ((m.flip_edge e).1.getH (m.twin h0)).vertex = v1
    rw [SF (m.twin h0) Htw0]
    exact Hvt0
  have VT5 : (m.flip_edge e).1.hvertex ((m.flip_edge e).1.twin h5) = v3 := by
    rw [TW5]
    show ((m.flip_edge e).1.getH (m.twin h5)).vertex = v3
    rw [SF (m.twin h5) Htw5]
    exact Hvt5
  have Q0 : h0 ∈ (m.flip_edge e).1.halfedges.map (fun p => p.1) := by
    rw [Kh]; exact M0
  have Q1 : h1 ∈ (m.flip_edge e).1.halfedges.map (fun p => p.1) := by
    rw [Kh]; exact M1
  have Q2 : h2 ∈ (m.flip_edge e).1.halfedges.map (fun p => p.1) := by
    rw [Kh]; exact M2
  have Q3 : h3 ∈ (m.flip_edge e).1.halfedges.map (fun p => p.1) := by
    rw [Kh]; exact M3
  have Q4 : h4 ∈ (m.flip_edge e).1.halfedges.map (fun p => p.1) := by
    rw [Kh]; exact M4
  have Q5 : h5 ∈ (m.flip_edge e).1.halfedges.map (fun p => p.1) := by
    rw [Kh]; exact M5
  have R0 : v0 ∈ (m.flip_edge e).1.vertices.map (fun p => p.1) := by
    rw [Kv]; exact W0
  have R1 : v1 ∈ (m.flip_edge e).1.vertices.map (fun p => p.1) := by
    rw [Kv]; exact W1
  have R2 : v2 ∈ (m.flip_edge e).1.vertices.map (fun p => p.1) := by
    rw [Kv]; exact W2
  have R3 : v3 ∈ (m.flip_edge e).1.vertices.map (fun p => p.1) := by
    rw [Kv]; exact W3
  have P0 : f0 ∈ (m.flip_edge e).1.faces.map (fun p => p.1) := by
    rw [Kf]; exact G0
  have P1 : f1 ∈ (m.flip_edge e).1.faces.map (fun p => p.1) := by
    rw [Kf]; exact G1
  have Hlen2 : 1 ≤ (m.flip_edge e).1.halfedges.length := by
    rw [Ln]; exact Hlen
  obtain ⟨U0, U1, U2, U3, U4, U5, UF, X0, X1, X2, X3, XF, Y0, Y1, YF,
      Ed2, Kh2, Kv2, Kf2, Ln2, E1, E2, E3, E4, E5⟩ :=
    flip_edge_spec (m.flip_edge e).1 e h4 h1 h0 h3 h5 h2 v1 v2 v3 v0 f0 f1
      He2 N1 N0 N4 T1 N3 N5 N2 VT0 Vx1 VT5 Vx3 Fx0 Fx1
      a14.symm a04.symm a34.symm a45 a24.symm a01.symm a13 a15 a12
      a03 a05 a02 a35 a23.symm a25.symm
      b12 b13 b01.symm b23 b02.symm b03.symm c01
      Q4 Q1 Q0 Q3 Q5 Q2 R1 R2 R3 R0 P0 P1 Hlen2
  refine ⟨?_, ?_, ?_, ?_, ?_, ?_, ?_, ?_, ?_, ?_, ?_, ?_, ?_, ?_, ?_, ?_,
    ?_, ?_, ?_, ?_, ?_, ?_⟩
  · rw [U2, TW0, HV0, HE0]
  · rw [U1, HE1]
  · rw [U5, TW2, HV2, HE2]
  · rw [U3, HE3]
  · rw [U0, TW4, HV4, HE4]
  · rw [U4, TW5, HV5, HE5]
  · intro k hk
    have hk2 : k ∉ [h4, h1, h0, h3, h5, h2] := by
      simp only [List.mem_cons, List.not_mem_nil, or_false, not_or] at hk ⊢
      obtain ⟨c0, c1, c2, c3, c4, c5⟩ := hk
      exact ⟨c4, c1, c0, c3, c5, c2⟩
    rw [UF k hk2, SF k hk]
  · rw [X3, V0']
  · rw [X0, V1']
  · rw [X1, V2']
  · rw [X2, V3']
  · intro u hu
    have hu2 : u ∉ [v1, v2, v3, v0] := by
      simp only [List.mem_cons, List.not_mem_nil, or_false, not_or] at hu ⊢
      obtain ⟨d0, d1, d2, d3⟩ := hu
      exact ⟨d1, d2, d3, d0⟩
    rw [XF u hu2, VF u hu]
  · rw [Y0, F0']
  · rw [Y1, F1']
  · intro g hg
    rw [YF g hg, FF g hg]
  · rw [Ed2, Ed]
  · rw [E1, D1]
  · rw [E2, D2]
  · rw [E3, D3]
  · rw [E4, D4]
  · rw [E5, D5]
  · intro w
    have hndM2 :
        ((((m.flip_edge e).1.flip_edge e).1.halfedges.map (fun p => p.1))).Nodup := by
      rw [Kh2, Kh]; exact Hnd
    rw [out_degree_eq_keys _ w hndM2, out_degree_eq_keys m w Hnd]
    rw [Kh2, Kh, E1, D1]
    have Gv1 : ((((m.flip_edge e).1.flip_edge e).1.getH h1)).vertex = v3 := by
      rw [U1]
    have Gv3 : ((((m.flip_edge e).1.flip_edge e).1.getH h3)).vertex = v1 := by
      rw [U3]
    apply countP_keys_swap (m.halfedges.map (fun p => p.1)) h1 h3 _ _ Hnd M1 M3 a13
    · intro k hk hk1 hk3
      dsimp only
      by_cases q0 : k = h0
      · subst q0
        rw [U2, HV0]
        rfl
      · by_cases q2 : k = h2
        · subst q2
          rw [U5, HV2]
          rfl
        · by_cases q4 : k = h4
          · subst q4
            rw [U0, HV4]
            rfl
          · by_cases q5 : k = h5
            · subst q5
              rw [U4, HV5]
              rfl
            · have hnot : k ∉ [h0, h1, h2, h3, h4, h5] := by
                simp only [List.mem_cons, List.not_mem_nil, or_false, not_or]
                exact ⟨q0, hk1, q2, hk3, q4, q5⟩
              have hnot2 : k ∉ [h4, h1, h0, h3, h5, h2] := by
                simp only [List.mem_cons, List.not_mem_nil, or_false, not_or]
                exact ⟨q4, hk1, q0, hk3, q5, q2⟩
              rw [UF k hnot2, SF k hnot]
    · dsimp only
      rw [Hd1, Hd3, Gv1]
      show (true && (v3 == w)) = (true && ((m.getH h3).vertex == w))
      rw [show (m.getH h3).vertex = v3 from Hv3]
    · dsimp only
      rw [Hd1, Hd3, Gv3]
      show (true && (v1 == w)) = (true && ((m.getH h1).vertex == w))
      rw [show (m.getH h1).vertex = v1 from Hv1]

set_option maxRecDepth 100000 in
/-- C7 (counterexample to the literal claim): on the tetrahedron (a mesh the
validator accepts, all faces triangles, no boundary) flipping edge 8 twice
does not restore the connectivity: the links of half-edge 14 — fields that
representative choice cannot affect — change. -/
theorem c7_counterexample :
    validateOk tetra = true ∧
    on_boundary_e tetra 8 = false ∧
    num_edges tetra (tetra.hface (tetra.ehalfedge 8)) = 3 ∧
    num_edges tetra (tetra.hface (tetra.twin (tetra.ehalfedge 8))) = 3 ∧
    ((tetra.flip_edge 8).1.flip_edge 8).1.getH 14 ≠ tetra.getH 14 := by
  decide

theorem c7_witness :
    ((tetra.flip_edge 8).1.flip_edge 8).1.getH 16 = ⟨19, 20, 2, 10, 5⟩ ∧
    out_degree ((tetra.flip_edge 8).1.flip_edge 8).1 0 = out_degree tetra 0 := by
  obtain ⟨hc1, -, -, -, -, -, -, -, -, -, -, -, -, -, -, -, -, -, -, -, -,
      hdeg⟩ :=
    c7_amended_double_flip tetra 8 16 14 15 19 17 18 2 0 3 1 4 5
      (by decide) (by decide) (by decide) (by decide) (by decide) (by decide)
      (by decide) (by decide) (by decide) (by decide) (by decide) (by decide)
      (by decide) (by decide) (by decide) (by decide) (by decide) (by decide)
      (by decide) (by decide) (by decide) (by decide) (by decide) (by decide)
      (by decide) (by decide) (by decide) (by decide) (by decide) (by decide)
      (by decide) (by decide) (by decide) (by decide) (by decide) (by decide)
      (by decide) (by decide) (by decide) (by decide) (by decide) (by decide)
      (by decide) (by decide) (by decide) (by decide) (by decide) (by decide)
      (by decide) (by decide) (by decide) (by decide) (by decide) (by decide)
      (by decide) (by decide)
  exact ⟨hc1, hdeg 0⟩
